import Mathlib

/-!
SRF04 ultrasonic ranging, LCD drivers and main loop of mazout_tiny.

Shallow embedding of the ranging subsystem of the firmware: the shared variables
`running`, `up`, `distance`, `timerCounter`, the I/O registers the code writes, the
two interrupt handlers `ISR(TIM0_OVF_vect)` and `SIGNAL(INT0_vect)`, and the two
functions `srf04_init` and `sonar`; of the LCD drivers `LCD-AVR-4d.c` (timed) and
`lcd.c` (busy flag); and of the parts of `main` that initialise the ranging state, read
`distance` and convert numbers to text.

Machine integers are natural numbers reduced modulo `2 ^ width` at every store.
Every store, busy-wait delay and `cli`/`sei` is appended to a log kept in the state,
so that the order of the effects of one call can be stated.
-/

namespace Srf04

/-! ## Data model -/

/-- Variables of `srf04.h` and the I/O registers written by `srf04.c`. `EICRA` and
`EIMSK` are the names `srf04.h` gives to `MCUCR` and `GIMSK`. -/
inductive Loc
  | running
  | up
  | distance
  | timerCounter
  | DDRB
  | PORTB
  | MCUCR
  | GIMSK
  | OCR1A
  | TCCR0B
  | TCNT0
  | TIMSK0
  deriving DecidableEq

/-- Width in bits of a location: `uint32_t running, distance, timerCounter`,
`unsigned char up`, the 16-bit `OCR1A`, and 8-bit I/O registers. -/
def Loc.width : Loc → Nat
  | .running => 32
  | .distance => 32
  | .timerCounter => 32
  | .OCR1A => 16
  | .up => 8
  | .DDRB => 8
  | .PORTB => 8
  | .MCUCR => 8
  | .GIMSK => 8
  | .TCCR0B => 8
  | .TCNT0 => 8
  | .TIMSK0 => 8

/-- Observable effects, in program order. -/
inductive Effect
  | write (l : Loc) (v : Nat)
  | delay_us (n : Nat)
  | cli
  | sei
  deriving DecidableEq

/-- Shared variables, registers, the global interrupt-enable flag of `SREG`, and the
log of effects performed so far. -/
structure State where
  running : Nat
  up : Nat
  distance : Nat
  timerCounter : Nat
  DDRB : Nat
  PORTB : Nat
  MCUCR : Nat
  GIMSK : Nat
  OCR1A : Nat
  TCCR0B : Nat
  TCNT0 : Nat
  TIMSK0 : Nat
  sregI : Bool
  trace : List Effect
  deriving DecidableEq

/-- Field update for a location. -/
def State.set (l : Loc) (v : Nat) (s : State) : State :=
  match l with
  | .running => { s with running := v }
  | .up => { s with up := v }
  | .distance => { s with distance := v }
  | .timerCounter => { s with timerCounter := v }
  | .DDRB => { s with DDRB := v }
  | .PORTB => { s with PORTB := v }
  | .MCUCR => { s with MCUCR := v }
  | .GIMSK => { s with GIMSK := v }
  | .OCR1A => { s with OCR1A := v }
  | .TCCR0B => { s with TCCR0B := v }
  | .TCNT0 => { s with TCNT0 := v }
  | .TIMSK0 => { s with TIMSK0 := v }

/-- A C assignment `l = v`: the value is reduced to the width of `l`, stored, and
logged. -/
def store (l : Loc) (v : Nat) (s : State) : State :=
  { State.set l (v % 2 ^ l.width) s with
    trace := s.trace ++ [Effect.write l (v % 2 ^ l.width)] }

/-- Busy-wait `_delay_us(n)` of `<util/delay.h>`: at least `n` microseconds pass. -/
def _delay_us (n : Nat) (s : State) : State :=
  { s with trace := s.trace ++ [Effect.delay_us n] }

/-- Clear the global interrupt-enable flag. -/
def cli (s : State) : State :=
  { s with sregI := false, trace := s.trace ++ [Effect.cli] }

/-- Set the global interrupt-enable flag. -/
def sei (s : State) : State :=
  { s with sregI := true, trace := s.trace ++ [Effect.sei] }

/-! ## Bit numbers

`PB1`, `PB2` are chosen in `srf04.h`; their values and those of the other bit names
are the ATtiny84 values of `<avr/io.h>`. -/

def PB1 : Nat := 1
def PB2 : Nat := 2
def ISC00 : Nat := 0
def ISC01 : Nat := 1
def INT0 : Nat := 6
def CS00 : Nat := 0
def TOIE0 : Nat := 0

/-- The macro `SONAR_TRIGGER_PIN` of `srf04.h`. -/
def SONAR_TRIGGER_PIN : Nat := PB1

/-- The macro `SONAR_ECHO_PIN` of `srf04.h`. -/
def SONAR_ECHO_PIN : Nat := PB2

/-- C `~x` on the 16-bit `int` of the AVR, as a bit pattern. -/
def bitNot (x : Nat) : Nat := (2 ^ 16 - 1) ^^^ (x % 2 ^ 16)

/-! ## Macros of `srf04.h` -/

/-- Macro body `SONAR_TRIGGER_DDR |= (1<<SONAR_TRIGGER_PIN)`. -/
def SONAR_TRIGGER_OUTPUT_MODE (s : State) : State :=
  store .DDRB (s.DDRB ||| (1 <<< SONAR_TRIGGER_PIN)) s

/-- Macro body `SONAR_TRIGGER_PORT &= ~(1<<SONAR_TRIGGER_PIN)`. -/
def SONAR_TRIGGER_LOW (s : State) : State :=
  store .PORTB (s.PORTB &&& bitNot (1 <<< SONAR_TRIGGER_PIN)) s

/-- Macro body `SONAR_TRIGGER_PORT |= (1<<SONAR_TRIGGER_PIN)`. -/
def SONAR_TRIGGER_HIGH (s : State) : State :=
  store .PORTB (s.PORTB ||| (1 <<< SONAR_TRIGGER_PIN)) s

/-- Macro body `SONAR_ECHO_DDR &= ~(1 << SONAR_ECHO_PIN)`. -/
def SONAR_ECHO_INPUT_MODE (s : State) : State :=
  store .DDRB (s.DDRB &&& bitNot (1 <<< SONAR_ECHO_PIN)) s

/-- Macro body `SONAR_ECHO_PORT |= (1 << SONAR_ECHO_PIN)`. -/
def SONAR_ECHO_PULL_UP (s : State) : State :=
  store .PORTB (s.PORTB ||| (1 <<< SONAR_ECHO_PIN)) s

/-! ## Floating-point product `x * 0.017`

`distance=(((timerCounter*256)+TCNT0)*0.017)` converts the `uint32_t` sum to `double`,
multiplies by the literal `0.017`, and converts the product back to `uint32_t`
(truncation toward zero). The arithmetic is IEEE-754 round-to-nearest-even with `p`
significand bits: `p = 24` for the 32-bit `double` of avr-gcc, `p = 53` for a 64-bit
`double`. All values involved are far from the exponent limits, so only the
significand rounding matters, and it is computed exactly on naturals. -/

/-- Length of the binary representation, by halving (`fuel` bounds the recursion). -/
def bitLengthAux : Nat → Nat → Nat
  | 0, _ => 0
  | fuel + 1, x => if x = 0 then 0 else bitLengthAux fuel (x / 2) + 1

/-- Number of bits of `x` (`0` for `x = 0`). -/
def bitLength (x : Nat) : Nat := bitLengthAux x x

/-- Round the natural `x` to `p` significant bits, to nearest, ties to even. -/
def roundSig (p x : Nat) : Nat :=
  let s := bitLength x - p
  if s = 0 then x
  else
    let q := x >>> s
    let r := x % 2 ^ s
    let h := 2 ^ (s - 1)
    if h < r ∨ (r = h ∧ q % 2 = 1) then (q + 1) <<< s else q <<< s

/-- Significand of the literal `0.017` with `p` bits: `0.017` lies in
`[2^-6, 2^-5)`, so the literal is `lit_0_017 p / 2 ^ (p + 5)`, the quotient
`17 * 2 ^ (p + 5) / 1000` rounded to nearest, ties to even. -/
def lit_0_017 (p : Nat) : Nat :=
  let q := 17 * 2 ^ (p + 5) / 1000
  let r := 17 * 2 ^ (p + 5) % 1000
  if 500 < r ∨ (r = 500 ∧ q % 2 = 1) then q + 1 else q

/-- The C expression `(uint32_t)(x * 0.017)` for a `uint32_t` value `x`: convert `x`
to floating point, multiply by the literal, round the product, truncate. -/
def mul_0_017 (p x : Nat) : Nat :=
  roundSig p (roundSig p x * lit_0_017 p) / 2 ^ (p + 5)

/-! ## `srf04.c` -/

/-- The function `srf04_init()`, statement by statement. -/
def srf04_init (s : State) : State :=
  let s := SONAR_TRIGGER_OUTPUT_MODE s
  let s := SONAR_ECHO_INPUT_MODE s
  let s := SONAR_ECHO_PULL_UP s
  let s := store .timerCounter 0 s
  let s := cli s
  let s := store .MCUCR (s.MCUCR ||| ((0 <<< ISC01) ||| (1 <<< ISC00))) s
  let s := store .GIMSK (s.GIMSK ||| (1 <<< INT0)) s
  let s := store .OCR1A 1484 s
  let s := store .TCCR0B (s.TCCR0B ||| (1 <<< CS00)) s
  let s := store .TCNT0 0 s
  let s := store .TIMSK0 (s.TIMSK0 ||| (1 <<< TOIE0)) s
  sei s

/-- The handler `ISR(TIM0_OVF_vect)` of the timer 0 overflow interrupt. -/
def TIM0_OVF_vect (s : State) : State :=
  if s.up ≠ 0 then
    let s := store .timerCounter (s.timerCounter + 1) s
    if 240 ≤ s.timerCounter then
      let s := store .distance 999 s
      let s := store .TCCR0B (s.TCCR0B ||| (0 <<< CS00)) s
      store .running 0 s
    else s
  else s

/-- The handler `SIGNAL(INT0_vect)` of the edge interrupt on the echo line. `p` is the
number of significand bits of `double`. -/
def INT0_vect (p : Nat) (s : State) : State :=
  if s.running ≠ 0 then
    if s.up = 0 then
      let s := store .up 1 s
      store .TCNT0 0 s
    else
      let s := store .up 0 s
      let s := store .distance
        (mul_0_017 p (((s.timerCounter * 256) % 2 ^ 32 + s.TCNT0) % 2 ^ 32)) s
      let s := store .timerCounter 0 s
      let s := store .TCCR0B (s.TCCR0B ||| (0 <<< CS00)) s
      store .running 0 s
  else
    let s := store .distance 0 s
    let s := store .TCCR0B (s.TCCR0B ||| (0 <<< CS00)) s
    store .running 0 s

/-- The function `sonar()`, statement by statement. -/
def sonar (s : State) : State :=
  let s := SONAR_TRIGGER_LOW s
  let s := _delay_us 2 s
  let s := SONAR_TRIGGER_HIGH s
  let s := _delay_us 10 s
  let s := SONAR_TRIGGER_LOW s
  store .running 1 s

/-! ## Interrupt events

The hardware counter `TCNT0` runs freely between handler invocations; an edge event
carries the value the counter holds when the handler reads it. -/

/-- Edge interrupt taken while the 8-bit counter holds `c`. -/
def edge (p c : Nat) (s : State) : State :=
  INT0_vect p { s with TCNT0 := c % 2 ^ 8 }

/-- The handler `TIM0_OVF_vect` run `k` times in a row, with no edge in between. -/
def overflows (k : Nat) (s : State) : State :=
  TIM0_OVF_vect^[k] s

/-- State with every variable and register zero and an empty log (`main` clears
`running` and `up` before anything else runs). -/
def zeroState : State :=
  { running := 0, up := 0, distance := 0, timerCounter := 0, DDRB := 0, PORTB := 0,
    MCUCR := 0, GIMSK := 0, OCR1A := 0, TCCR0B := 0, TCNT0 := 0, TIMSK0 := 0,
    sregI := false, trace := [] }

/-- One full ranging cycle that ends by a falling edge: `sonar()`, rising edge, `k`
overflows, falling edge read at counter value `c`. -/
def fallCycle (p c0 k c : Nat) (s : State) : State :=
  edge p c (overflows k (edge p c0 (sonar s)))

/-- One full ranging cycle that ends by the timeout: `sonar()`, rising edge, 240
overflows and no falling edge. -/
def timeoutCycle (p c0 : Nat) (s : State) : State :=
  overflows 240 (edge p c0 (sonar s))

/-! ## Timing figures of the header comment of `srf04.c`

The comment block at the top of `srf04.c` gives the clock (10 MHz, no prescaler), the
speed of sound (340 m/s), the longest echo (38 ms) and the formula
`distance = [deltaT * sound_speed] / 2`. -/

/-- Clock frequency in Hz ("internal clock attiny84 : 10MHz"). -/
def F_CPU : Nat := 10000000

/-- Speed of sound in m/s ("sound_speed(340m/s)"). -/
def sound_speed : Nat := 340

/-- Number of counts of the 8-bit counter `TCNT0` between two overflows. -/
def counterWidth : Nat := 256

/-- Timer ticks in the longest echo, 38 ms at `F_CPU` ticks per second. -/
def maxEchoTicks : Nat := F_CPU * 38 / 1000

/-- An overflow count `n` matches the longest echo when `n` overflow periods differ
from `maxEchoTicks` by at most one overflow period. -/
def matchesMaxEcho (n : Nat) : Prop :=
  maxEchoTicks ≤ n * counterWidth + counterWidth ∧ n * counterWidth ≤ maxEchoTicks + counterWidth

instance (n : Nat) : Decidable (matchesMaxEcho n) := by
  unfold matchesMaxEcho
  infer_instance

/-- Distance in millimetres covered per timer tick, one way: the clock period
`1 / F_CPU` seconds times the speed of sound in mm/s, halved for the round trip. -/
def ticksToDistanceFactor : ℚ := (1 / (F_CPU : ℚ)) * ((sound_speed : ℚ) * 1000) / 2

/-- Clock-select bits 1 and 2 of `TCCR0B` (`<avr/io.h>`, ATtiny84). -/
def CS01 : Nat := 1
def CS02 : Nat := 2

/-! ## Order of the writes of one handler invocation -/

/-- Whether an effect is a write to location `l`. -/
def isWrite (l : Loc) : Effect → Bool
  | .write l' _ => decide (l' = l)
  | _ => false

/-- Whether no effect of the list writes location `l`. -/
def noWriteTo (l : Loc) (t : List Effect) : Bool :=
  t.all (fun e => !isWrite l e)

/-- Scan of the effects of one invocation: at every write to `running`, a write to
`distance` has been seen before (`seen`) and none follows. -/
def publicationOrder : Bool → List Effect → Bool
  | _, [] => true
  | seen, e :: t =>
    if isWrite .running e then seen && noWriteTo .distance t && publicationOrder seen t
    else publicationOrder (seen || isWrite .distance e) t

/-! ## LCD driver `LCD-AVR-4d.c` (4-bit interface, timed)

The driver writes the registers named in `LCD-AVR-4d.h`: the data lines D7..D4, E and
RS are bits of `PORTA`; the direction bits are in `DDRA`, that of E in `DDRB`. Each
call of `lcd_write_instruction_4d` or `lcd_write_character_4d` is also logged with
its argument. -/

/-- Registers written by the LCD driver. -/
inductive LcdReg
  | PORTA
  | DDRA
  | DDRB
  deriving DecidableEq

/-- Effects of the LCD driver, in program order. -/
inductive LcdEffect
  | write (r : LcdReg) (v : Nat)
  | delay_us (n : Nat)
  | delay_ms (n : Nat)
  | instruction (b : Nat)
  | character (b : Nat)
  deriving DecidableEq

/-- Registers of the LCD interface and the log of effects. -/
structure LcdState where
  PORTA : Nat
  DDRA : Nat
  DDRB : Nat
  log : List LcdEffect
  deriving DecidableEq

/-- A store to an 8-bit register of the LCD interface. -/
def lcdStore (r : LcdReg) (v : Nat) (s : LcdState) : LcdState :=
  match r with
  | .PORTA => { s with PORTA := v % 2 ^ 8, log := s.log ++ [LcdEffect.write r (v % 2 ^ 8)] }
  | .DDRA => { s with DDRA := v % 2 ^ 8, log := s.log ++ [LcdEffect.write r (v % 2 ^ 8)] }
  | .DDRB => { s with DDRB := v % 2 ^ 8, log := s.log ++ [LcdEffect.write r (v % 2 ^ 8)] }

/-- Busy-wait `_delay_us(n)` inside the LCD driver. -/
def lcd_delay_us (n : Nat) (s : LcdState) : LcdState :=
  { s with log := s.log ++ [LcdEffect.delay_us n] }

/-- Busy-wait `_delay_ms(n)` inside the LCD driver. -/
def lcd_delay_ms (n : Nat) (s : LcdState) : LcdState :=
  { s with log := s.log ++ [LcdEffect.delay_ms n] }

/-! Bit numbers of `LCD-AVR-4d.h` (`PORTAn` is `n`). -/

def lcd_D7_bit : Nat := 3
def lcd_D6_bit : Nat := 2
def lcd_D5_bit : Nat := 1
def lcd_D4_bit : Nat := 0
def lcd_E_bit : Nat := 5
def lcd_RS_bit : Nat := 4

/-! LCD instructions of `LCD-AVR-4d.h`. -/

def lcd_Clear : Nat := 0b00000001
def lcd_EntryMode : Nat := 0b00000110
def lcd_DisplayOff : Nat := 0b00001000
def lcd_DisplayOn : Nat := 0b00001100
def lcd_FunctionReset : Nat := 0b00110000
def lcd_FunctionSet4bit : Nat := 0b00101000
def lcd_SetCursor : Nat := 0b10000000
def lcd_LineOne : Nat := 0x00
def lcd_LineTwo : Nat := 0x40

/-- The function `lcd_write_4d(theByte)`: put the upper four bits of `theByte` on
D7..D4 and pulse E. -/
def lcd_write_4d (theByte : Nat) (s : LcdState) : LcdState :=
  let s := lcdStore .PORTA (s.PORTA &&& bitNot (1 <<< lcd_D7_bit)) s
  let s := if theByte &&& (1 <<< 7) ≠ 0 then
    lcdStore .PORTA (s.PORTA ||| (1 <<< lcd_D7_bit)) s else s
  let s := lcdStore .PORTA (s.PORTA &&& bitNot (1 <<< lcd_D6_bit)) s
  let s := if theByte &&& (1 <<< 6) ≠ 0 then
    lcdStore .PORTA (s.PORTA ||| (1 <<< lcd_D6_bit)) s else s
  let s := lcdStore .PORTA (s.PORTA &&& bitNot (1 <<< lcd_D5_bit)) s
  let s := if theByte &&& (1 <<< 5) ≠ 0 then
    lcdStore .PORTA (s.PORTA ||| (1 <<< lcd_D5_bit)) s else s
  let s := lcdStore .PORTA (s.PORTA &&& bitNot (1 <<< lcd_D4_bit)) s
  let s := if theByte &&& (1 <<< 4) ≠ 0 then
    lcdStore .PORTA (s.PORTA ||| (1 <<< lcd_D4_bit)) s else s
  let s := lcdStore .PORTA (s.PORTA ||| (1 <<< lcd_E_bit)) s
  let s := lcd_delay_us 1 s
  let s := lcdStore .PORTA (s.PORTA &&& bitNot (1 <<< lcd_E_bit)) s
  lcd_delay_us 1 s

/-- The function `lcd_write_instruction_4d(theInstruction)`; the argument is a
`uint8_t`, and so is the argument `theInstruction << 4` of the second write. -/
def lcd_write_instruction_4d (theInstruction : Nat) (s : LcdState) : LcdState :=
  let s := { s with log := s.log ++ [LcdEffect.instruction (theInstruction % 2 ^ 8)] }
  let s := lcdStore .PORTA (s.PORTA &&& bitNot (1 <<< lcd_RS_bit)) s
  let s := lcdStore .PORTA (s.PORTA &&& bitNot (1 <<< lcd_E_bit)) s
  let s := lcd_write_4d (theInstruction % 2 ^ 8) s
  lcd_write_4d ((theInstruction % 2 ^ 8) <<< 4 % 2 ^ 8) s

/-- The function `lcd_write_character_4d(theData)`. -/
def lcd_write_character_4d (theData : Nat) (s : LcdState) : LcdState :=
  let s := { s with log := s.log ++ [LcdEffect.character (theData % 2 ^ 8)] }
  let s := lcdStore .PORTA (s.PORTA ||| (1 <<< lcd_RS_bit)) s
  let s := lcdStore .PORTA (s.PORTA &&& bitNot (1 <<< lcd_E_bit)) s
  let s := lcd_write_4d (theData % 2 ^ 8) s
  lcd_write_4d ((theData % 2 ^ 8) <<< 4 % 2 ^ 8) s

/-- The function `lcd_init_4d()`, statement by statement. -/
def lcd_init_4d (s : LcdState) : LcdState :=
  let s := lcdStore .DDRA (s.DDRA ||| (1 <<< lcd_D7_bit)) s
  let s := lcdStore .DDRA (s.DDRA ||| (1 <<< lcd_D6_bit)) s
  let s := lcdStore .DDRA (s.DDRA ||| (1 <<< lcd_D5_bit)) s
  let s := lcdStore .DDRA (s.DDRA ||| (1 <<< lcd_D4_bit)) s
  let s := lcdStore .DDRB (s.DDRB ||| (1 <<< lcd_E_bit)) s
  let s := lcdStore .DDRA (s.DDRA ||| (1 <<< lcd_RS_bit)) s
  let s := lcd_delay_ms 100 s
  let s := lcdStore .PORTA (s.PORTA &&& bitNot (1 <<< lcd_RS_bit)) s
  let s := lcdStore .PORTA (s.PORTA &&& bitNot (1 <<< lcd_E_bit)) s
  let s := lcd_write_4d lcd_FunctionReset s
  let s := lcd_delay_ms 10 s
  let s := lcd_write_4d lcd_FunctionReset s
  let s := lcd_delay_us 200 s
  let s := lcd_write_4d lcd_FunctionReset s
  let s := lcd_delay_us 200 s
  let s := lcd_write_4d lcd_FunctionSet4bit s
  let s := lcd_delay_us 80 s
  let s := lcd_write_instruction_4d lcd_FunctionSet4bit s
  let s := lcd_delay_us 80 s
  let s := lcd_write_instruction_4d lcd_DisplayOff s
  let s := lcd_delay_us 80 s
  let s := lcd_write_instruction_4d lcd_Clear s
  let s := lcd_delay_ms 4 s
  let s := lcd_write_instruction_4d lcd_EntryMode s
  let s := lcd_delay_us 80 s
  let s := lcd_write_instruction_4d lcd_DisplayOn s
  let s := lcd_delay_us 80 s
  let s := lcd_write_instruction_4d lcd_DisplayOff s
  lcd_delay_us 80 s

/-- The instruction bytes passed to `lcd_write_instruction_4d`, in order. -/
def instructionsSent (log : List LcdEffect) : List Nat :=
  log.filterMap (fun e => match e with
    | .instruction b => some b
    | _ => none)

/-- Display on/off control instructions of the HD44780 have the form `0b00001DCB`. -/
def isDisplayControl (b : Nat) : Bool := b / 8 == 1

/-- The last display on/off control instruction among `bs`, if any. -/
def lastDisplayControl (bs : List Nat) : Option Nat :=
  (bs.filter isDisplayControl).getLast?

/-- LCD interface registers all zero, empty log. -/
def lcdZero : LcdState := { PORTA := 0, DDRA := 0, DDRB := 0, log := [] }

/-! ## `main.c`

`main` is modelled up to the call of `srf04_init()` and, for one pass of the loop, up
to the read of `distance`. The functions of `lcd.c` it calls write only the LCD
interface registers (`PORTA`, `DDRA`); their calls are recorded in order and not
expanded. -/

/-- Calls of `main` into `lcd.c`. -/
inductive LcdCall
  | init
  | instruction (b : Nat)
  deriving DecidableEq

/-- State of `main`: the ranging state, the variable `flipIt`, and the calls made
into the LCD driver. -/
structure MainState where
  hw : State
  flipIt : Nat
  lcdCalls : List LcdCall
  deriving DecidableEq

/-- LED pin of `main.h` (`PB0`). -/
def LED_NUMMER : Nat := 0

/-- Macro body `LED_DDRB |= (1<<LED_NUMMER)`. -/
def LED_DDRB_OUTPUT_MODE (s : State) : State :=
  store .DDRB (s.DDRB ||| (1 <<< LED_NUMMER)) s

/-- Macro body `LED_PORT |= (1<<LED_NUMMER)`. -/
def LED_HIGH (s : State) : State :=
  store .PORTB (s.PORTB ||| (1 <<< LED_NUMMER)) s

/-- Macro body `LED_PORT &= ~(1<<LED_NUMMER)`. -/
def LED_LOW (s : State) : State :=
  store .PORTB (s.PORTB &&& bitNot (1 <<< LED_NUMMER)) s

/-- Busy-wait `_delay_ms(n)`: at least `1000 * n` microseconds pass. -/
def _delay_ms (n : Nat) (s : State) : State :=
  { s with trace := s.trace ++ [Effect.delay_us (1000 * n)] }

/-- The function `flipLed()`. -/
def flipLed (m : MainState) : MainState :=
  if m.flipIt = 1 then { m with flipIt := 0, hw := LED_HIGH m.hw }
  else { m with flipIt := 1, hw := LED_LOW m.hw }

/-- Start of `main` up to and including the call `srf04_init()`. -/
def main_init (m : MainState) : MainState :=
  let m := { m with hw := store .running 0 m.hw }
  let m := { m with hw := store .up 0 m.hw }
  let m := { m with hw := LED_DDRB_OUTPUT_MODE m.hw }
  let m := { m with lcdCalls := m.lcdCalls ++ [LcdCall.init] }
  { m with hw := srf04_init m.hw }

/-- One pass of the loop of `main`, run without interrupts, from its top to the point
where `distance` is read in `df=(float)134-distance`. -/
def main_loop_to_read (m : MainState) : MainState :=
  let m := { m with lcdCalls := m.lcdCalls ++ [LcdCall.instruction (lcd_SetCursor ||| lcd_LineOne)] }
  if m.hw.running = 0 then
    let m := { m with hw := _delay_ms 60 m.hw }
    let m := { m with hw := sonar m.hw }
    flipLed m
  else m

/-- State of `main` before it runs: `flipIt = 1`, everything else zero. -/
def mainZero : MainState := { hw := zeroState, flipIt := 1, lcdCalls := [] }

/-! ## LCD driver `lcd.c` (4-bit interface, busy flag)

The driver used by `main`. Its lines are those of `lcd.h`: D7..D4 are bits 7..4 of
`PORTA`, E is bit 1, RW bit 2 and RS bit 3. `lcd_check_BF` polls the busy flag on the
input register `PINA`; the values read, one per pass of its loop, are given as a list,
and a list that is used up while the flag is still set means that the call has not
returned. -/

def LcdH.lcd_D7_bit : Nat := 7
def LcdH.lcd_D6_bit : Nat := 6
def LcdH.lcd_D5_bit : Nat := 5
def LcdH.lcd_D4_bit : Nat := 4
def LcdH.lcd_E_bit : Nat := 1
def LcdH.lcd_RS_bit : Nat := 3
def LcdH.lcd_RW_bit : Nat := 2

/-- The function `lcd_write(theByte)` of `lcd.c`: put the upper four bits of `theByte`
on D7..D4 and pulse E. -/
def lcd_write (theByte : Nat) (s : LcdState) : LcdState :=
  let s := lcdStore .PORTA (s.PORTA &&& bitNot (1 <<< LcdH.lcd_D7_bit)) s
  let s := if theByte &&& (1 <<< 7) ≠ 0 then
    lcdStore .PORTA (s.PORTA ||| (1 <<< LcdH.lcd_D7_bit)) s else s
  let s := lcdStore .PORTA (s.PORTA &&& bitNot (1 <<< LcdH.lcd_D6_bit)) s
  let s := if theByte &&& (1 <<< 6) ≠ 0 then
    lcdStore .PORTA (s.PORTA ||| (1 <<< LcdH.lcd_D6_bit)) s else s
  let s := lcdStore .PORTA (s.PORTA &&& bitNot (1 <<< LcdH.lcd_D5_bit)) s
  let s := if theByte &&& (1 <<< 5) ≠ 0 then
    lcdStore .PORTA (s.PORTA ||| (1 <<< LcdH.lcd_D5_bit)) s else s
  let s := lcdStore .PORTA (s.PORTA &&& bitNot (1 <<< LcdH.lcd_D4_bit)) s
  let s := if theByte &&& (1 <<< 4) ≠ 0 then
    lcdStore .PORTA (s.PORTA ||| (1 <<< LcdH.lcd_D4_bit)) s else s
  let s := lcdStore .PORTA (s.PORTA ||| (1 <<< LcdH.lcd_E_bit)) s
  let s := lcd_delay_us 1 s
  let s := lcdStore .PORTA (s.PORTA &&& bitNot (1 <<< LcdH.lcd_E_bit)) s
  lcd_delay_us 1 s

/-- The port writes and delays of one pass of the `do ... while` loop of
`lcd_check_BF`: E high, (the busy flag is read here), E low, and a second E pulse for
the discarded low nibble. -/
def lcd_check_BF_pass (s : LcdState) : LcdState :=
  let s := lcdStore .PORTA (s.PORTA ||| (1 <<< LcdH.lcd_E_bit)) s
  let s := lcd_delay_us 1 s
  let s := lcdStore .PORTA (s.PORTA &&& bitNot (1 <<< LcdH.lcd_E_bit)) s
  let s := lcd_delay_us 1 s
  let s := lcdStore .PORTA (s.PORTA ||| (1 <<< LcdH.lcd_E_bit)) s
  let s := lcd_delay_us 1 s
  let s := lcdStore .PORTA (s.PORTA &&& bitNot (1 <<< LcdH.lcd_E_bit)) s
  lcd_delay_us 1 s

/-- The loop of `lcd_check_BF`: each pass reads one value of `PINA` and the loop
repeats while `busy_flag_copy = PINA & (1<<lcd_D7_bit)` is not 0. The result is the
state and the unread values, or `none` when the values run out with the flag set. -/
def lcd_check_BF_loop : List Nat → LcdState → Option (LcdState × List Nat)
  | [], _ => none
  | pina :: rest, s =>
    if (pina % 2 ^ 8) &&& (1 <<< LcdH.lcd_D7_bit) ≠ 0 then
      lcd_check_BF_loop rest (lcd_check_BF_pass s)
    else some (lcd_check_BF_pass s, rest)

/-- The function `lcd_check_BF()` of `lcd.c`. -/
def lcd_check_BF (pina : List Nat) (s : LcdState) : Option (LcdState × List Nat) :=
  let s := lcdStore .DDRA (s.DDRA &&& bitNot (1 <<< LcdH.lcd_D7_bit)) s
  let s := lcdStore .PORTA (s.PORTA &&& bitNot (1 <<< LcdH.lcd_RS_bit)) s
  let s := lcdStore .PORTA (s.PORTA ||| (1 <<< LcdH.lcd_RW_bit)) s
  match lcd_check_BF_loop pina s with
  | none => none
  | some (s, rest) =>
    let s := lcdStore .PORTA (s.PORTA &&& bitNot (1 <<< LcdH.lcd_RW_bit)) s
    let s := lcdStore .DDRA (s.DDRA ||| (1 <<< LcdH.lcd_D7_bit)) s
    some (s, rest)

/-- The function `lcd_write_instruction(theInstruction)` of `lcd.c`. -/
def lcd_write_instruction (pina : List Nat) (theInstruction : Nat) (s : LcdState) :
    Option (LcdState × List Nat) :=
  match lcd_check_BF pina s with
  | none => none
  | some (s, rest) =>
    let s := lcdStore .PORTA (s.PORTA &&& bitNot (1 <<< LcdH.lcd_RW_bit)) s
    let s := lcdStore .PORTA (s.PORTA &&& bitNot (1 <<< LcdH.lcd_RS_bit)) s
    let s := lcdStore .PORTA (s.PORTA &&& bitNot (1 <<< LcdH.lcd_E_bit)) s
    let s := lcd_write (theInstruction % 2 ^ 8) s
    let s := lcd_write ((theInstruction % 2 ^ 8) <<< 4 % 2 ^ 8) s
    some (s, rest)

/-- The function `lcd_write_character(theData)` of `lcd.c`. -/
def lcd_write_character (pina : List Nat) (theData : Nat) (s : LcdState) :
    Option (LcdState × List Nat) :=
  match lcd_check_BF pina s with
  | none => none
  | some (s, rest) =>
    let s := lcdStore .PORTA (s.PORTA &&& bitNot (1 <<< LcdH.lcd_RW_bit)) s
    let s := lcdStore .PORTA (s.PORTA ||| (1 <<< LcdH.lcd_RS_bit)) s
    let s := lcdStore .PORTA (s.PORTA &&& bitNot (1 <<< LcdH.lcd_E_bit)) s
    let s := lcd_write (theData % 2 ^ 8) s
    let s := lcd_write ((theData % 2 ^ 8) <<< 4 % 2 ^ 8) s
    some (s, rest)

/-! ## What the LCD sees: E strobes

The display takes the lines at the falling edge of E. A strobe records, at a write to
`PORTA` that takes E from 1 to 0, the levels of RW, RS and D7..D4 in the value
written. -/

/-- Bit numbers in `PORTA` of the LCD lines; RW is absent when it is tied to ground. -/
structure LcdPins where
  E : Nat
  RS : Nat
  RW : Option Nat
  D7 : Nat
  D6 : Nat
  D5 : Nat
  D4 : Nat

/-- Lines of `LCD-AVR-4d.h`. -/
def pins4d : LcdPins :=
  { E := lcd_E_bit, RS := lcd_RS_bit, RW := none,
    D7 := lcd_D7_bit, D6 := lcd_D6_bit, D5 := lcd_D5_bit, D4 := lcd_D4_bit }

/-- Lines of `lcd.h`. -/
def pinsH : LcdPins :=
  { E := LcdH.lcd_E_bit, RS := LcdH.lcd_RS_bit, RW := some LcdH.lcd_RW_bit,
    D7 := LcdH.lcd_D7_bit, D6 := LcdH.lcd_D6_bit, D5 := LcdH.lcd_D5_bit,
    D4 := LcdH.lcd_D4_bit }

/-- Levels of the lines at one falling edge of E. -/
structure Strobe where
  rw : Bool
  rs : Bool
  d7 : Bool
  d6 : Bool
  d5 : Bool
  d4 : Bool
  deriving DecidableEq

/-- The levels of the lines in the port value `v`. -/
def strobeAt (pins : LcdPins) (v : Nat) : Strobe :=
  { rw := match pins.RW with
      | some k => v.testBit k
      | none => false
    rs := v.testBit pins.RS, d7 := v.testBit pins.D7, d6 := v.testBit pins.D6,
    d5 := v.testBit pins.D5, d4 := v.testBit pins.D4 }

/-- The value written if the effect is a write to `PORTA`. -/
def portWrite : LcdEffect → Option Nat
  | .write .PORTA v => some v
  | _ => none

/-- The strobes in a list of effects, starting with port value `cur`. -/
def strobes (pins : LcdPins) : Nat → List LcdEffect → List Strobe
  | _, [] => []
  | cur, e :: t =>
    match portWrite e with
    | some v =>
      if cur.testBit pins.E && !v.testBit pins.E then strobeAt pins v :: strobes pins v t
      else strobes pins v t
    | none => strobes pins cur t

/-- The strobes with RW low, at which the display latches what the lines present. -/
def writeStrobes (pins : LcdPins) (cur : Nat) (t : List LcdEffect) : List Strobe :=
  (strobes pins cur t).filter (fun x => !x.rw)

/-- The port value after a list of effects, starting with port value `cur`. -/
def portAfter : Nat → List LcdEffect → Nat
  | cur, [] => cur
  | cur, e :: t =>
    match portWrite e with
    | some v => portAfter v t
    | none => portAfter cur t

/-- The effects logged since the log had length `n`. -/
def effectsSince (n : Nat) (s : LcdState) : List LcdEffect :=
  s.log.drop n

/-- The state `s` continues the log of `s0` by effects that lead from the port value
of `s0` to that of `s` and contain exactly the strobes `out`. -/
def Tracks (pins : LcdPins) (s0 s : LcdState) (out : List Strobe) : Prop :=
  ∃ t, s.log = s0.log ++ t ∧ portAfter s0.PORTA t = s.PORTA ∧ strobes pins s0.PORTA t = out

/-- The two statements of `lcd_write` and `lcd_write_4d` for one data line on bit `k`:
`PORT &= ~(1<<k); if (c) PORT |= (1<<k);`. -/
def dataBit (k : Nat) (c : Prop) [Decidable c] (s : LcdState) : LcdState :=
  let s := lcdStore .PORTA (s.PORTA &&& bitNot (1 <<< k)) s
  if c then lcdStore .PORTA (s.PORTA ||| (1 <<< k)) s else s

/-- The four statements of `lcd_write` and `lcd_write_4d` that pulse E on bit `e`. -/
def pulseE (e : Nat) (s : LcdState) : LcdState :=
  let s := lcdStore .PORTA (s.PORTA ||| (1 <<< e)) s
  let s := lcd_delay_us 1 s
  let s := lcdStore .PORTA (s.PORTA &&& bitNot (1 <<< e)) s
  lcd_delay_us 1 s

/-- The strobes of a call of a function of `lcd.c` made in state `s`, when the call
has returned. -/
def callStrobes (pins : LcdPins) (s : LcdState) (r : Option (LcdState × List Nat)) :
    Option (List Strobe) :=
  r.map (fun x => strobes pins s.PORTA (effectsSince s.log.length x.1))

/-- The strobes with RW low of a call of a function of `lcd.c` made in state `s`, when
the call has returned. -/
def callWriteStrobes (pins : LcdPins) (s : LcdState) (r : Option (LcdState × List Nat)) :
    Option (List Strobe) :=
  r.map (fun x => writeStrobes pins s.PORTA (effectsSince s.log.length x.1))

/-! ## Sequences of steps of the ranging state machine -/

/-- One step: a call of `srf04_init` or `sonar`, an edge interrupt taken at a counter
value, or an overflow interrupt. -/
inductive Step
  | init
  | sonar
  | edge (tcnt0 : Nat)
  | overflow
  deriving DecidableEq

/-- The state after one step. -/
def step (p : Nat) (s : State) : Step → State
  | .init => srf04_init s
  | .sonar => sonar s
  | .edge c => edge p c s
  | .overflow => TIM0_OVF_vect s

/-- The state after a sequence of steps. -/
def run (p : Nat) (s : State) (steps : List Step) : State :=
  steps.foldl (step p) s

/-! ## Text conversion in `main`

`main` converts with `itoa(v, buffer, 10)` (avr-libc) into `char buffer[4]`. -/

/-- Size of `buffer` in `main.c`. -/
def bufferSize : Nat := 4

/-- The conversion `(int)x` of a `uint16_t` value on the AVR, where `int` has 16 bits
(two's complement). -/
def toInt16 (x : Nat) : Int :=
  if x % 2 ^ 16 < 2 ^ 15 then ((x % 2 ^ 16 : Nat) : Int) else ((x % 2 ^ 16 : Nat) : Int) - 2 ^ 16

/-- The characters `itoa(v, buffer, 10)` produces: a minus sign for a negative value,
then the decimal digits of the magnitude. -/
def itoa (v : Int) : List Char :=
  (if v < 0 then ['-'] else []) ++ Nat.toDigits 10 v.natAbs

/-- Bytes `itoa(v, buffer, 10)` stores into the buffer: the characters and the
terminating NUL. -/
def itoaBytes (v : Int) : Nat := (itoa v).length + 1

/-! ## The floating-point product on the range of a ranging cycle -/

theorem bitLengthAux_le (fuel : Nat) : ∀ x k : Nat, x < 2 ^ k → bitLengthAux fuel x ≤ k := by
  induction fuel with
  | zero => intro x k _; simp [bitLengthAux]
  | succ f ih =>
    intro x k hx
    unfold bitLengthAux
    split
    · omega
    · rename_i hx0
      cases k with
      | zero => simp at hx; omega
      | succ k =>
        have h2 : x / 2 < 2 ^ k := by
          rw [pow_succ] at hx
          omega
        have := ih (x / 2) k h2
        omega

theorem bitLength_le (x k : Nat) (hx : x < 2 ^ k) : bitLength x ≤ k :=
  bitLengthAux_le x x k hx

theorem roundSig_of_lt (p x : Nat) (hx : x < 2 ^ p) : roundSig p x = x := by
  have h := bitLength_le x p hx
  unfold roundSig
  have hs : bitLength x - p = 0 := by omega
  simp [hs]

theorem lit_0_017_binary32 : lit_0_017 24 = 9126806 := by
  norm_num [lit_0_017]

theorem lit_0_017_binary64 : lit_0_017 53 = 4899916394579100 := by
  norm_num [lit_0_017]

theorem mul_0_017_binary32 (n : Nat) (hn : n ≤ 61695) : mul_0_017 24 n = n * 17 / 1000 := by
  unfold mul_0_017
  rw [roundSig_of_lt 24 n (by norm_num; omega), lit_0_017_binary32]
  have hb : bitLength (n * 9126806) ≤ 40 := bitLength_le _ 40 (by norm_num; omega)
  unfold roundSig
  have hs : bitLength (n * 9126806) - 24 ≤ 16 := by omega
  generalize bitLength (n * 9126806) - 24 = s at hs
  interval_cases s <;> simp only [Nat.shiftRight_eq_div_pow, Nat.shiftLeft_eq] <;>
    norm_num <;> first | omega | (split_ifs <;> omega)

theorem mul_0_017_binary64 (n : Nat) (hn : n ≤ 61695) : mul_0_017 53 n = n * 17 / 1000 := by
  unfold mul_0_017
  rw [roundSig_of_lt 53 n (by norm_num; omega), lit_0_017_binary64]
  have hb : bitLength (n * 4899916394579100) ≤ 69 := bitLength_le _ 69 (by norm_num; omega)
  unfold roundSig
  have hs : bitLength (n * 4899916394579100) - 53 ≤ 16 := by omega
  generalize bitLength (n * 4899916394579100) - 53 = s at hs
  interval_cases s <;> simp only [Nat.shiftRight_eq_div_pow, Nat.shiftLeft_eq] <;>
    norm_num <;> first | omega | (split_ifs <;> omega)

/-- On every tick count a cycle can produce before the timeout, the floating-point
product truncates to the exact quotient, for both widths of `double`. -/
theorem mul_0_017_exact (p n : Nat) (hp : p = 24 ∨ p = 53) (hn : n ≤ 61695) :
    mul_0_017 p n = n * 17 / 1000 := by
  rcases hp with rfl | rfl
  · exact mul_0_017_binary32 n hn
  · exact mul_0_017_binary64 n hn

/-! ## Single steps of the handlers -/

/-- The overflow handler never writes `up`. -/
theorem TIM0_OVF_vect_up (s : State) : (TIM0_OVF_vect s).up = s.up := by
  simp only [TIM0_OVF_vect, store, State.set]
  split_ifs <;> rfl

/-- An overflow that leaves the count below the threshold only increments it. -/
theorem TIM0_OVF_vect_count (s : State) (hup : s.up ≠ 0) (ht : s.timerCounter + 1 < 240) :
    (TIM0_OVF_vect s).timerCounter = s.timerCounter + 1 ∧
    (TIM0_OVF_vect s).running = s.running ∧
    (TIM0_OVF_vect s).distance = s.distance ∧
    (TIM0_OVF_vect s).TCCR0B = s.TCCR0B := by
  have hm : (s.timerCounter + 1) % 4294967296 = s.timerCounter + 1 :=
    Nat.mod_eq_of_lt (by omega)
  have hlt : ¬ 240 ≤ s.timerCounter + 1 := by omega
  simp [TIM0_OVF_vect, store, State.set, Loc.width, hup, hm, hlt]

/-- The overflow that brings the count to the threshold stores 999 and clears
`running`. -/
theorem TIM0_OVF_vect_timeout (s : State) (hup : s.up ≠ 0) (ht : s.timerCounter = 239) :
    (TIM0_OVF_vect s).distance = 999 ∧ (TIM0_OVF_vect s).running = 0 ∧
    (TIM0_OVF_vect s).timerCounter = 240 := by
  simp [TIM0_OVF_vect, store, State.set, Loc.width, hup, ht]

/-- Counting phase: `k` overflows that stay below the threshold. -/
theorem overflows_count (k : Nat) : ∀ s : State, s.up ≠ 0 → s.timerCounter + k < 240 →
    (overflows k s).timerCounter = s.timerCounter + k ∧
    (overflows k s).up = s.up ∧
    (overflows k s).running = s.running ∧
    (overflows k s).distance = s.distance := by
  induction k with
  | zero => intro s _ _; simp [overflows]
  | succ k ih =>
    intro s hup hk
    have h1 := TIM0_OVF_vect_count s hup (by omega)
    have hu := TIM0_OVF_vect_up s
    have h2 := ih (TIM0_OVF_vect s) (by rw [hu]; exact hup) (by omega)
    simp only [overflows, Function.iterate_succ_apply] at h2 ⊢
    refine ⟨?_, ?_, ?_, ?_⟩
    · rw [h2.1, h1.1]; omega
    · rw [h2.2.1, hu]
    · rw [h2.2.2.1, h1.2.1]
    · rw [h2.2.2.2, h1.2.2.1]

/-- The rising edge: the handler sets `up`, clears `TCNT0`, and touches nothing else of
the shared variables. -/
theorem edge_rise (p c : Nat) (s : State) (hrun : s.running ≠ 0) (hup : s.up = 0) :
    (edge p c s).up = 1 ∧ (edge p c s).running = s.running ∧
    (edge p c s).distance = s.distance ∧ (edge p c s).timerCounter = s.timerCounter ∧
    (edge p c s).TCNT0 = 0 := by
  simp [edge, INT0_vect, store, State.set, Loc.width, hrun, hup]

/-- The falling edge: the handler stores the converted tick count and returns the
shared variables to their idle values. -/
theorem edge_fall (p c : Nat) (s : State) (hrun : s.running ≠ 0) (hup : s.up ≠ 0) :
    (edge p c s).distance =
      mul_0_017 p (((s.timerCounter * 256) % 2 ^ 32 + c % 2 ^ 8) % 2 ^ 32) % 2 ^ 32 ∧
    (edge p c s).running = 0 ∧ (edge p c s).up = 0 ∧ (edge p c s).timerCounter = 0 := by
  simp [edge, INT0_vect, store, State.set, Loc.width, hrun, hup]

/-- An edge while `running` is 0. -/
theorem INT0_vect_idle (p : Nat) (s : State) (hrun : s.running = 0) :
    (INT0_vect p s).distance = 0 ∧ (INT0_vect p s).running = 0 ∧
    (INT0_vect p s).up = s.up ∧ (INT0_vect p s).timerCounter = s.timerCounter := by
  simp [INT0_vect, store, State.set, Loc.width, hrun]

/-- Shared variables after `sonar()`. -/
theorem sonar_vars (s : State) :
    (sonar s).running = 1 ∧ (sonar s).up = s.up ∧ (sonar s).distance = s.distance ∧
    (sonar s).timerCounter = s.timerCounter := by
  simp [sonar, SONAR_TRIGGER_LOW, SONAR_TRIGGER_HIGH, _delay_us, store, State.set, Loc.width]

/-- A clean cycle from an armed state: rising edge, `k < 240` overflows, falling edge
read at counter value `c`. -/
theorem clean_cycle (p : Nat) (hp : p = 24 ∨ p = 53) (s : State) (c0 k c : Nat)
    (hrun : s.running = 1) (hup : s.up = 0) (htc : s.timerCounter = 0)
    (hk : k < 240) (hc : c ≤ 255) :
    (edge p c (overflows k (edge p c0 s))).distance = (k * 256 + c) * 17 / 1000 ∧
    (edge p c (overflows k (edge p c0 s))).running = 0 ∧
    (edge p c (overflows k (edge p c0 s))).up = 0 ∧
    (edge p c (overflows k (edge p c0 s))).timerCounter = 0 := by
  obtain ⟨r1, r2, _, r4, _⟩ := edge_rise p c0 s (by omega) hup
  obtain ⟨o1, o2, o3, _⟩ := overflows_count k (edge p c0 s) (by omega) (by omega)
  obtain ⟨f1, f2, f3, f4⟩ := edge_fall p c (overflows k (edge p c0 s)) (by omega) (by omega)
  refine ⟨?_, f2, f3, f4⟩
  rw [f1, o1, r4, htc]
  have e1 : ((0 + k) * 256 % 2 ^ 32 + c % 2 ^ 8) % 2 ^ 32 = k * 256 + c := by
    norm_num
    omega
  rw [e1, mul_0_017_exact p (k * 256 + c) hp (by omega)]
  exact Nat.mod_eq_of_lt (by norm_num; omega)

/-- With `up` clear the overflow handler does nothing. -/
theorem TIM0_OVF_vect_idle (s : State) (hup : s.up = 0) : TIM0_OVF_vect s = s := by
  simp [TIM0_OVF_vect, hup]

theorem overflows_idle (k : Nat) (s : State) (hup : s.up = 0) : overflows k s = s := by
  induction k with
  | zero => rfl
  | succ k ih =>
    simp only [overflows, Function.iterate_succ_apply] at ih ⊢
    rw [TIM0_OVF_vect_idle s hup]
    exact ih

/-- The overflow handler never turns `running` on. -/
theorem TIM0_OVF_vect_running (s : State) (hrun : s.running = 0) :
    (TIM0_OVF_vect s).running = 0 := by
  simp only [TIM0_OVF_vect, store, State.set]
  split_ifs <;> simp [hrun, Loc.width]

/-- An edge event while `running` is 0. -/
theorem edge_idle (p c : Nat) (s : State) (hrun : s.running = 0) :
    (edge p c s).distance = 0 ∧ (edge p c s).running = 0 ∧
    (edge p c s).up = s.up ∧ (edge p c s).timerCounter = s.timerCounter := by
  simp [edge, INT0_vect, store, State.set, Loc.width, hrun]

/-- After a rising edge, 240 overflows in a row: the 240th one is the timeout, and
neither `up` nor the overflow count is reset. -/
theorem overflows_timeout (s : State) (hup : s.up ≠ 0) (htc : s.timerCounter = 0) :
    (overflows 240 s).distance = 999 ∧ (overflows 240 s).running = 0 ∧
    (overflows 240 s).up = s.up ∧ (overflows 240 s).timerCounter = 240 := by
  obtain ⟨o1, o2, _, _⟩ := overflows_count 239 s hup (by omega)
  have e : overflows 240 s = TIM0_OVF_vect (overflows 239 s) := by
    simp only [overflows]
    exact Function.iterate_succ_apply' TIM0_OVF_vect 239 s
  obtain ⟨t1, t2, t3⟩ := TIM0_OVF_vect_timeout (overflows 239 s) (by rw [o2]; exact hup)
    (by rw [o1, htc])
  rw [e]
  exact ⟨t1, t2, by rw [TIM0_OVF_vect_up, o2], t3⟩

/-- A cycle started while `up` is still set: the first edge is taken for the falling
edge and ends the cycle, and the real falling edge then arrives while idle. -/
theorem stale_up_cycle (p c1 k c : Nat) (s : State) (hup : s.up ≠ 0) :
    (edge p c1 (sonar s)).running = 0 ∧ (edge p c1 (sonar s)).up = 0 ∧
    (fallCycle p c1 k c s).distance = 0 ∧ (fallCycle p c1 k c s).running = 0 := by
  obtain ⟨s1, s2, _, _⟩ := sonar_vars s
  obtain ⟨_, f2, f3, _⟩ := edge_fall p c1 (sonar s) (by omega) (by rw [s2]; exact hup)
  have e : overflows k (edge p c1 (sonar s)) = edge p c1 (sonar s) := overflows_idle k _ f3
  obtain ⟨i1, i2, _, _⟩ := edge_idle p c (edge p c1 (sonar s)) f2
  refine ⟨f2, f3, ?_, ?_⟩
  · simp only [fallCycle, e, i1]
  · simp only [fallCycle, e, i2]

/-! ## Bit-level facts for the trigger pin -/

theorem testBit_two (i : Nat) : (2 : Nat).testBit i = decide (i = 1) := by
  have h := @Nat.testBit_two_pow 1 i
  simp only [pow_one] at h
  rw [h]
  simp [eq_comm]

theorem testBit_bitNot_two (i : Nat) :
    (bitNot 2).testBit i = (decide (i < 16) && !decide (i = 1)) := by
  unfold bitNot
  rw [Nat.testBit_xor, Nat.testBit_two_pow_sub_one]
  have : (2 % 2 ^ 16 : Nat) = 2 := by norm_num
  rw [this, testBit_two]
  by_cases h1 : i = 1
  · subst h1; rfl
  · by_cases h16 : i < 16 <;> simp [h1, h16]

/-- Bits of the port value written by `PORT &= ~(1<<1)`. -/
theorem testBit_clear_pin (x i : Nat) :
    ((x &&& bitNot (1 <<< SONAR_TRIGGER_PIN)) % 2 ^ 8).testBit i
      = (decide (i < 8) && x.testBit i && !decide (i = 1)) := by
  have : (1 <<< SONAR_TRIGGER_PIN : Nat) = 2 := by decide
  rw [this, Nat.testBit_mod_two_pow, Nat.testBit_and, testBit_bitNot_two]
  by_cases h8 : i < 8
  · have : i < 16 := by omega
    simp [h8, this]
  · simp [h8]

/-- Bits of the port value written by `PORT |= (1<<1)`. -/
theorem testBit_set_pin (x i : Nat) :
    ((x ||| (1 <<< SONAR_TRIGGER_PIN)) % 2 ^ 8).testBit i
      = (decide (i < 8) && (x.testBit i || decide (i = 1))) := by
  have : (1 <<< SONAR_TRIGGER_PIN : Nat) = 2 := by decide
  rw [this, Nat.testBit_mod_two_pow, Nat.testBit_or, testBit_two]

/-- Clearing the pin, setting it and clearing it again gives the value of the first
clearing. -/
theorem clear_set_clear_pin (x : Nat) :
    (((((x &&& bitNot (1 <<< SONAR_TRIGGER_PIN)) % 2 ^ 8) ||| (1 <<< SONAR_TRIGGER_PIN)) % 2 ^ 8
        &&& bitNot (1 <<< SONAR_TRIGGER_PIN)) % 2 ^ 8)
      = (x &&& bitNot (1 <<< SONAR_TRIGGER_PIN)) % 2 ^ 8 := by
  apply Nat.eq_of_testBit_eq
  intro i
  rw [testBit_clear_pin, testBit_set_pin, testBit_clear_pin]
  cases decide (i < 8) <;> cases x.testBit i <;> cases decide (i = 1) <;> rfl

/-- Log and port value after `sonar()`, as the code writes them. -/
theorem sonar_trace_raw (s : State) :
    (sonar s).trace = s.trace ++
      [Effect.write .PORTB ((s.PORTB &&& bitNot (1 <<< SONAR_TRIGGER_PIN)) % 2 ^ 8),
       Effect.delay_us 2,
       Effect.write .PORTB
         ((((s.PORTB &&& bitNot (1 <<< SONAR_TRIGGER_PIN)) % 2 ^ 8)
            ||| (1 <<< SONAR_TRIGGER_PIN)) % 2 ^ 8),
       Effect.delay_us 10,
       Effect.write .PORTB ((s.PORTB &&& bitNot (1 <<< SONAR_TRIGGER_PIN)) % 2 ^ 8),
       Effect.write .running 1] ∧
    (sonar s).PORTB = (s.PORTB &&& bitNot (1 <<< SONAR_TRIGGER_PIN)) % 2 ^ 8 := by
  have h := clear_set_clear_pin s.PORTB
  simp only [sonar, SONAR_TRIGGER_LOW, SONAR_TRIGGER_HIGH, _delay_us, store, State.set,
    Loc.width, List.append_assoc, List.singleton_append, List.cons_append, List.nil_append, h]
  simp

/-! ## Properties of the ranging cycle -/

/-- Claim C1: from an armed clean state (`running = 1`, `up = 0`, `timerCounter = 0`),
after the rising edge, `k < 240` overflows and the falling edge read at `TCNT0 = c`,
`distance` is `(k * 256 + c) * 0.017` truncated and `running` is 0, for either width
of `double`. -/
theorem clean_cycle_distance (p : Nat) (hp : p = 24 ∨ p = 53) (s : State) (c0 k c : Nat)
    (hrun : s.running = 1) (hup : s.up = 0) (htc : s.timerCounter = 0)
    (hk : k < 240) (hc : c ≤ 255) :
    (edge p c (overflows k (edge p c0 s))).distance = (k * 256 + c) * 17 / 1000 ∧
    (edge p c (overflows k (edge p c0 s))).running = 0 := by
  obtain ⟨h1, h2, _, _⟩ := clean_cycle p hp s c0 k c hrun hup htc hk hc
  exact ⟨h1, h2⟩

/-- Witness for C1: 3 overflows and a final counter value of 232 (1000 ticks) give
distance 17. -/
theorem clean_cycle_distance_witness :
    (edge 24 232 (overflows 3 (edge 24 0 (sonar zeroState)))).distance = 17 ∧
    (edge 24 232 (overflows 3 (edge 24 0 (sonar zeroState)))).running = 0 :=
  clean_cycle_distance 24 (Or.inl rfl) (sonar zeroState) 0 3 232
    (by decide) (by decide) (by decide) (by decide) (by decide)

/-- Claim C2: from the state just after a rising edge (`running = 1`, `up = 1`,
`timerCounter = 0`), 240 overflows with no edge in between leave `distance = 999` and
`running = 0`. -/
theorem timeout_after_240_overflows (s : State)
    (_hrun : s.running = 1) (hup : s.up = 1) (htc : s.timerCounter = 0) :
    (overflows 240 s).distance = 999 ∧ (overflows 240 s).running = 0 := by
  obtain ⟨h1, h2, _, _⟩ := overflows_timeout s (by omega) htc
  exact ⟨h1, h2⟩

/-- Witness for C2, at the state reached by `sonar()` and a rising edge. -/
theorem timeout_after_240_overflows_witness :
    (overflows 240 (edge 24 0 (sonar zeroState))).distance = 999 ∧
    (overflows 240 (edge 24 0 (sonar zeroState))).running = 0 :=
  timeout_after_240_overflows (edge 24 0 (sonar zeroState))
    (by decide) (by decide) (by decide)

/-- Claim C3, evaluated on the code: after one cycle that ended by the timeout,
`running` is 0, yet in the next cycle (`sonar()`, rising edge, 3 overflows, falling
edge at `TCNT0 = 232`) the rising edge already clears `running`, and the cycle ends
with `distance = 0` where `(3 * 256 + 232) * 0.017` truncated is 17. -/
theorem cycle_after_timeout_is_lost :
    (timeoutCycle 24 0 zeroState).running = 0 ∧
    (edge 24 0 (sonar (timeoutCycle 24 0 zeroState))).running = 0 ∧
    (fallCycle 24 0 3 232 (timeoutCycle 24 0 zeroState)).distance = 0 ∧
    (3 * 256 + 232) * 17 / 1000 = 17 := by
  have hr : (edge 24 0 (sonar zeroState)).up = 1 := by decide
  have ht : (edge 24 0 (sonar zeroState)).timerCounter = 0 := by decide
  obtain ⟨_, t2, t3, _⟩ := overflows_timeout (edge 24 0 (sonar zeroState)) (by omega) ht
  have hup : (timeoutCycle 24 0 zeroState).up ≠ 0 := by
    simp only [timeoutCycle]
    omega
  obtain ⟨a1, _, a3, _⟩ := stale_up_cycle 24 0 3 232 (timeoutCycle 24 0 zeroState) hup
  exact ⟨t2, a1, a3, by decide⟩

/-- Claim C4: an edge interrupt taken while `running` is 0 sets `distance` to 0,
leaves `running` at 0, and leaves `up` and `timerCounter` unchanged. -/
theorem spurious_edge_while_idle (p : Nat) (s : State) (hrun : s.running = 0) :
    (INT0_vect p s).distance = 0 ∧ (INT0_vect p s).running = 0 ∧
    (INT0_vect p s).up = s.up ∧ (INT0_vect p s).timerCounter = s.timerCounter :=
  INT0_vect_idle p s hrun

/-- Witness for C4, at the post-timeout state (`up = 1`, `timerCounter = 240`). -/
theorem spurious_edge_while_idle_witness :
    (INT0_vect 24 { zeroState with up := 1, timerCounter := 240, distance := 999 }).distance = 0 ∧
    (INT0_vect 24 { zeroState with up := 1, timerCounter := 240, distance := 999 }).running = 0 ∧
    (INT0_vect 24 { zeroState with up := 1, timerCounter := 240, distance := 999 }).up = 1 ∧
    (INT0_vect 24 { zeroState with up := 1, timerCounter := 240, distance := 999 }).timerCounter
      = 240 :=
  spurious_edge_while_idle 24 { zeroState with up := 1, timerCounter := 240, distance := 999 }
    (by decide)

/-- Claim C5: no interrupt handler turns `running` on. If `running` is 0, it is 0
after the edge handler and after the overflow handler (and after `srf04_init`, which
does not write it); `sonar()` is the function that sets it to 1. -/
theorem handlers_never_set_running (p : Nat) (s : State) (hrun : s.running = 0) :
    (INT0_vect p s).running = 0 ∧ (TIM0_OVF_vect s).running = 0 ∧
    (srf04_init s).running = 0 ∧ (sonar s).running = 1 := by
  refine ⟨(INT0_vect_idle p s hrun).2.1, TIM0_OVF_vect_running s hrun, ?_, (sonar_vars s).1⟩
  simp [srf04_init, SONAR_TRIGGER_OUTPUT_MODE, SONAR_ECHO_INPUT_MODE, SONAR_ECHO_PULL_UP,
    cli, sei, store, State.set, hrun]

/-- Witness for C5, at a state with `up` set and the count one below the threshold,
where the overflow handler takes its timeout branch. -/
theorem handlers_never_set_running_witness :
    (INT0_vect 24 { zeroState with up := 1, timerCounter := 239 }).running = 0 ∧
    (TIM0_OVF_vect { zeroState with up := 1, timerCounter := 239 }).running = 0 ∧
    (srf04_init { zeroState with up := 1, timerCounter := 239 }).running = 0 ∧
    (sonar { zeroState with up := 1, timerCounter := 239 }).running = 1 :=
  handlers_never_set_running 24 { zeroState with up := 1, timerCounter := 239 } (by decide)

/-- Claim C6: within a clean cycle `running` stays 1 and `distance` is untouched after
the rising edge (`j = 0`) and after each following overflow that brings `timerCounter`
to a value `j` below 240. -/
theorem running_held_until_terminal_event (p : Nat) (s : State) (c0 j : Nat)
    (hrun : s.running = 1) (hup : s.up = 0) (htc : s.timerCounter = 0) (hj : j < 240) :
    (overflows j (edge p c0 s)).timerCounter = j ∧
    (overflows j (edge p c0 s)).running = 1 ∧
    (overflows j (edge p c0 s)).distance = s.distance := by
  obtain ⟨r1, r2, r3, r4, _⟩ := edge_rise p c0 s (by omega) hup
  obtain ⟨o1, _, o3, o4⟩ := overflows_count j (edge p c0 s) (by omega) (by omega)
  refine ⟨by omega, by omega, by omega⟩

/-- Witness for C6: 239 overflows into a cycle whose previous result was 17. -/
theorem running_held_until_terminal_event_witness :
    (overflows 239 (edge 24 0 (sonar (fallCycle 24 0 3 232 zeroState)))).timerCounter = 239 ∧
    (overflows 239 (edge 24 0 (sonar (fallCycle 24 0 3 232 zeroState)))).running = 1 ∧
    (overflows 239 (edge 24 0 (sonar (fallCycle 24 0 3 232 zeroState)))).distance = 17 :=
  running_held_until_terminal_event 24 (sonar (fallCycle 24 0 3 232 zeroState)) 0 239
    (by decide) (by decide) (by decide) (by decide)

/-- Claim C7, counterexample: `sonar()` called in the state after a rising edge
(`running = 1`, `up = 1`) returns with `up` still 1, so the state is not
WaitingForRise. -/
theorem sonar_does_not_clear_up :
    ¬ ((sonar (edge 24 0 (sonar zeroState))).running = 1 ∧
       (sonar (edge 24 0 (sonar zeroState))).up = 0) := by
  decide

/-- Claim C7, amended: for every prior state with `up = 0`, after `sonar()` `running`
is 1 and `up` is 0, and the next edge is handled as the rising edge: it sets `up`,
clears `TCNT0`, and keeps `running`, `distance` and `timerCounter`. -/
theorem sonar_arms_when_up_clear (p c : Nat) (s : State) (hup : s.up = 0) :
    (sonar s).running = 1 ∧ (sonar s).up = 0 ∧
    (edge p c (sonar s)).up = 1 ∧ (edge p c (sonar s)).TCNT0 = 0 ∧
    (edge p c (sonar s)).running = 1 ∧ (edge p c (sonar s)).distance = s.distance ∧
    (edge p c (sonar s)).timerCounter = s.timerCounter := by
  obtain ⟨s1, s2, s3, s4⟩ := sonar_vars s
  obtain ⟨r1, r2, r3, r4, r5⟩ := edge_rise p c (sonar s) (by omega) (by omega)
  exact ⟨s1, by omega, r1, r5, by omega, by omega, by omega⟩

/-- Witness for C7 (amended), at the state left by a completed cycle. -/
theorem sonar_arms_when_up_clear_witness :
    (sonar (fallCycle 24 0 3 232 zeroState)).running = 1 ∧
    (sonar (fallCycle 24 0 3 232 zeroState)).up = 0 ∧
    (edge 24 9 (sonar (fallCycle 24 0 3 232 zeroState))).up = 1 ∧
    (edge 24 9 (sonar (fallCycle 24 0 3 232 zeroState))).TCNT0 = 0 ∧
    (edge 24 9 (sonar (fallCycle 24 0 3 232 zeroState))).running = 1 ∧
    (edge 24 9 (sonar (fallCycle 24 0 3 232 zeroState))).distance = 17 ∧
    (edge 24 9 (sonar (fallCycle 24 0 3 232 zeroState))).timerCounter = 0 :=
  sonar_arms_when_up_clear 24 9 (fallCycle 24 0 3 232 zeroState) (by decide)

/-- Claim C8: the effects of `sonar()` are, in this order, a port write with the
trigger pin low, `_delay_us(2)`, a port write with the trigger pin high,
`_delay_us(10)`, a port write with the trigger pin low, and last the write
`running = 1`; every port value written, and the final port value, agrees with the
prior port value on each of the other seven bits. -/
theorem sonar_trigger_trace (s : State) :
    ∃ lo hi : Nat,
      (sonar s).trace = s.trace ++
        [Effect.write .PORTB lo, Effect.delay_us 2, Effect.write .PORTB hi,
         Effect.delay_us 10, Effect.write .PORTB lo, Effect.write .running 1] ∧
      (sonar s).PORTB = lo ∧
      lo.testBit SONAR_TRIGGER_PIN = false ∧ hi.testBit SONAR_TRIGGER_PIN = true ∧
      ∀ i, i < 8 → i ≠ SONAR_TRIGGER_PIN →
        lo.testBit i = s.PORTB.testBit i ∧ hi.testBit i = s.PORTB.testBit i := by
  obtain ⟨ht, hp⟩ := sonar_trace_raw s
  refine ⟨_, _, ht, hp, ?_, ?_, ?_⟩
  · rw [testBit_clear_pin]
    simp [SONAR_TRIGGER_PIN, PB1]
  · rw [testBit_set_pin]
    simp [SONAR_TRIGGER_PIN, PB1]
  · intro i h8 h1
    have h1' : i ≠ 1 := h1
    rw [testBit_set_pin, testBit_clear_pin]
    simp [h8, h1']

/-- Claim C9, evaluated on the code: in the state reached by `sonar()`, a rising edge
and 239 overflows (`up = 1`, `timerCounter = 239`), the next overflow is the timeout;
the handler clears `running` but leaves `up = 1` and `timerCounter = 240`, and the
first edge after the next `sonar()` is then handled as a falling edge (`up` and
`running` become 0). -/
theorem timeout_leaves_up_set :
    (overflows 239 (edge 24 0 (sonar zeroState))).up = 1 ∧
    (overflows 239 (edge 24 0 (sonar zeroState))).timerCounter = 239 ∧
    (TIM0_OVF_vect (overflows 239 (edge 24 0 (sonar zeroState)))).running = 0 ∧
    (TIM0_OVF_vect (overflows 239 (edge 24 0 (sonar zeroState)))).up = 1 ∧
    (TIM0_OVF_vect (overflows 239 (edge 24 0 (sonar zeroState)))).timerCounter = 240 ∧
    (edge 24 0 (sonar (TIM0_OVF_vect (overflows 239 (edge 24 0 (sonar zeroState)))))).up = 0 ∧
    (edge 24 0 (sonar (TIM0_OVF_vect (overflows 239 (edge 24 0 (sonar zeroState)))))).running
      = 0 := by
  have hr : (edge 24 0 (sonar zeroState)).up = 1 := by decide
  have ht : (edge 24 0 (sonar zeroState)).timerCounter = 0 := by decide
  obtain ⟨o1, o2, _, _⟩ := overflows_count 239 (edge 24 0 (sonar zeroState)) (by omega)
    (by omega)
  obtain ⟨_, t2, t3⟩ := TIM0_OVF_vect_timeout (overflows 239 (edge 24 0 (sonar zeroState)))
    (by omega) (by omega)
  have hu := TIM0_OVF_vect_up (overflows 239 (edge 24 0 (sonar zeroState)))
  obtain ⟨a1, a2, _, _⟩ := stale_up_cycle 24 0 0 0
    (TIM0_OVF_vect (overflows 239 (edge 24 0 (sonar zeroState)))) (by omega)
  exact ⟨by omega, by omega, t2, by omega, t3, a2, a1⟩

/-- Claim C10, counterexample: a clean cycle with 229 overflows and a final counter
value of 141 (58765 ticks) ends by the falling edge with `distance = 999`, the value
the overflow handler stores on timeout. -/
theorem measured_distance_can_be_999 :
    ¬ ((edge 24 141 (overflows 229 (edge 24 0 (sonar zeroState)))).distance ≠ 999) := by
  have h := (clean_cycle 24 (Or.inl rfl) (sonar zeroState) 0 229 141
    (by decide) (by decide) (by decide) (by decide) (by decide)).1
  rw [h]
  decide

/-- Claim C10, amended: for a clean cycle that ends by a falling edge (`k < 240`
overflows, final counter value `c ≤ 255`), the distance stored by the edge handler
is 999 exactly when the tick count `k * 256 + c` lies in `58765 .. 58823`; for every
other tick count it differs from the timeout value. -/
theorem measured_distance_eq_999_iff (p : Nat) (hp : p = 24 ∨ p = 53) (s : State)
    (c0 k c : Nat) (hrun : s.running = 1) (hup : s.up = 0) (htc : s.timerCounter = 0)
    (hk : k < 240) (hc : c ≤ 255) :
    (edge p c (overflows k (edge p c0 s))).distance = 999 ↔
      58765 ≤ k * 256 + c ∧ k * 256 + c ≤ 58823 := by
  rw [(clean_cycle p hp s c0 k c hrun hup htc hk hc).1]
  omega

/-- Witness for C10 (amended): 1000 ticks lie outside `58765 .. 58823`. -/
theorem measured_distance_eq_999_iff_witness :
    (edge 53 232 (overflows 3 (edge 53 0 (sonar zeroState)))).distance = 999 ↔
      58765 ≤ 3 * 256 + 232 ∧ 3 * 256 + 232 ≤ 58823 :=
  measured_distance_eq_999_iff 53 (Or.inr rfl) (sonar zeroState) 0 3 232
    (by decide) (by decide) (by decide) (by decide) (by decide)

/-! ## Timing figures, initialisation and the stop of the timer -/

/-- Shared variables after `srf04_init()`: only `timerCounter` is written. -/
theorem srf04_init_vars (s : State) :
    (srf04_init s).running = s.running ∧ (srf04_init s).up = s.up ∧
    (srf04_init s).timerCounter = 0 ∧ (srf04_init s).distance = s.distance := by
  simp [srf04_init, SONAR_TRIGGER_OUTPUT_MODE, SONAR_ECHO_INPUT_MODE, SONAR_ECHO_PULL_UP,
    cli, sei, store, State.set, Loc.width]

/-- Control registers after `srf04_init()`. -/
theorem srf04_init_regs (s : State) :
    (srf04_init s).MCUCR = (s.MCUCR ||| ((0 <<< ISC01) ||| (1 <<< ISC00))) % 2 ^ 8 ∧
    (srf04_init s).GIMSK = (s.GIMSK ||| (1 <<< INT0)) % 2 ^ 8 ∧
    (srf04_init s).TCCR0B = (s.TCCR0B ||| (1 <<< CS00)) % 2 ^ 8 ∧
    (srf04_init s).TIMSK0 = (s.TIMSK0 ||| (1 <<< TOIE0)) % 2 ^ 8 ∧
    (srf04_init s).OCR1A = 1484 ∧ (srf04_init s).TCNT0 = 0 ∧
    (srf04_init s).sregI = true := by
  simp [srf04_init, SONAR_TRIGGER_OUTPUT_MODE, SONAR_ECHO_INPUT_MODE, SONAR_ECHO_PULL_UP,
    cli, sei, store, State.set, Loc.width]

/-- Claim C11, evaluated on the code: in a cycle started after `srf04_init()`, the
overflow handler declares the timeout at the 240th overflow (`running` is still 1
after 239 overflows, and 0 with `distance = 999` after 240). 240 overflow periods are
61440 ticks (6.144 ms at 0.1 microsecond per tick), not the 380000 ticks of 38 ms to
within one overflow period; the count 1484 of the header comment, which
`srf04_init()` stores in `OCR1A`, would be. -/
theorem timeout_threshold_is_240_not_1484 :
    (overflows 239 (edge 24 0 (sonar (srf04_init zeroState)))).running = 1 ∧
    (overflows 240 (edge 24 0 (sonar (srf04_init zeroState)))).running = 0 ∧
    (overflows 240 (edge 24 0 (sonar (srf04_init zeroState)))).distance = 999 ∧
    240 * counterWidth = 61440 ∧ maxEchoTicks = 380000 ∧
    ¬ matchesMaxEcho 240 ∧ matchesMaxEcho 1484 ∧
    (srf04_init zeroState).OCR1A = 1484 := by
  have hr : (edge 24 0 (sonar (srf04_init zeroState))).running = 1 := by decide
  have hu : (edge 24 0 (sonar (srf04_init zeroState))).up = 1 := by decide
  have ht : (edge 24 0 (sonar (srf04_init zeroState))).timerCounter = 0 := by decide
  obtain ⟨_, _, o3, _⟩ := overflows_count 239 (edge 24 0 (sonar (srf04_init zeroState)))
    (by omega) (by omega)
  obtain ⟨t1, t2, _, _⟩ := overflows_timeout (edge 24 0 (sonar (srf04_init zeroState)))
    (by omega) ht
  exact ⟨by omega, t2, t1, by decide, by decide, by decide, by decide,
    (srf04_init_regs zeroState).2.2.2.2.1⟩

/-- Claim C12: the distance per tick, `(clock period * speed of sound) / 2` in
millimetres at 10 MHz and 340 m/s, is exactly `17/1000`; the literal `0.017` of the
edge handler is the floating-point number nearest to it (within half a unit in the
last place), and on every tick count of a cycle the handler's product, truncated, is
the integer part of `ticks * 17/1000`. -/
theorem per_tick_factor (p n : Nat) (hp : p = 24 ∨ p = 53) (hn : n ≤ 61695) :
    ticksToDistanceFactor = 17 / 1000 ∧
    |(lit_0_017 p : ℚ) / 2 ^ (p + 5) - ticksToDistanceFactor| ≤ 1 / 2 ^ (p + 6) ∧
    mul_0_017 p n = ⌊(n : ℚ) * ticksToDistanceFactor⌋₊ := by
  have hf : ticksToDistanceFactor = 17 / 1000 := by
    norm_num [ticksToDistanceFactor, F_CPU, sound_speed]
  refine ⟨hf, ?_, ?_⟩
  · rw [hf]
    rcases hp with rfl | rfl
    · rw [lit_0_017_binary32, abs_le]
      norm_num
    · rw [lit_0_017_binary64, abs_le]
      norm_num
  · rw [mul_0_017_exact p n hp hn, hf]
    have e : (n : ℚ) * (17 / 1000) = ((n * 17 : ℕ) : ℚ) / ((1000 : ℕ) : ℚ) := by
      push_cast
      ring
    rw [e, Nat.floor_div_eq_div]

/-- Witness for C12: 1000 ticks with a 32-bit `double`. -/
theorem per_tick_factor_witness :
    ticksToDistanceFactor = 17 / 1000 ∧
    |(lit_0_017 24 : ℚ) / 2 ^ (24 + 5) - ticksToDistanceFactor| ≤ 1 / 2 ^ (24 + 6) ∧
    mul_0_017 24 1000 = ⌊((1000 : ℕ) : ℚ) * ticksToDistanceFactor⌋₊ :=
  per_tick_factor 24 1000 (Or.inl rfl) (by decide)

/-- Claim C13, counterexample: `srf04_init()` called in the state after a rising edge
(`running = 1`, `up = 1`) returns with `running = 1` and `up = 1`. -/
theorem srf04_init_keeps_running_and_up :
    ¬ ((srf04_init (edge 24 0 (sonar zeroState))).running = 0 ∧
       (srf04_init (edge 24 0 (sonar zeroState))).up = 0 ∧
       (srf04_init (edge 24 0 (sonar zeroState))).timerCounter = 0) := by
  decide

/-- Claim C13, amended: for every prior state `m` of `main`, after `main` has stored
`running = 0` and `up = 0` and called `srf04_init()`, `running`, `up` and
`timerCounter` are 0; on every state `s`, `srf04_init()` itself sets
`timerCounter = 0` and leaves `running` and `up` as they were. -/
theorem main_init_shared_state (m : MainState) (s : State) :
    (main_init m).hw.running = 0 ∧ (main_init m).hw.up = 0 ∧
    (main_init m).hw.timerCounter = 0 ∧
    (srf04_init s).running = s.running ∧ (srf04_init s).up = s.up ∧
    (srf04_init s).timerCounter = 0 := by
  refine ⟨?_, ?_, ?_, (srf04_init_vars s).1, (srf04_init_vars s).2.1,
    (srf04_init_vars s).2.2.1⟩
  · simp [main_init, (srf04_init_vars _).1, LED_DDRB_OUTPUT_MODE, store, State.set]
  · simp [main_init, (srf04_init_vars _).2.1, LED_DDRB_OUTPUT_MODE, store, State.set]
  · simp [main_init, (srf04_init_vars _).2.2.1]

/-- Bits of a register after `REG |= m`. -/
theorem testBit_or_mod8 (x m i : Nat) :
    ((x ||| m) % 2 ^ 8).testBit i = (decide (i < 8) && (x.testBit i || m.testBit i)) := by
  rw [Nat.testBit_mod_two_pow, Nat.testBit_or]

/-- Claim C14, counterexample: with `ISC01` and `CS02` set before the call,
`srf04_init()` leaves them set (`|=` clears no bit): the sense bits are `11` and the
clock-select bits `101`. -/
theorem srf04_init_keeps_set_bits :
    ¬ ((srf04_init { zeroState with MCUCR := 1 <<< ISC01, TCCR0B := 1 <<< CS02 }).MCUCR.testBit
          ISC01 = false ∧
       (srf04_init { zeroState with MCUCR := 1 <<< ISC01, TCCR0B := 1 <<< CS02 }).TCCR0B.testBit
          CS02 = false) := by
  decide

/-- Claim C14, amended: for every prior state in which `ISC01`, `CS01` and `CS02` are
0 (as in the reset values of `MCUCR` and `TCCR0B`), after `srf04_init()` the sense
bits are `ISC01 = 0`, `ISC00 = 1`, `INT0` is enabled, the clock-select bits are `001`,
the overflow interrupt is enabled and global interrupts are enabled. -/
theorem srf04_init_configures_interrupts (s : State)
    (h1 : s.MCUCR.testBit ISC01 = false) (h2 : s.TCCR0B.testBit CS01 = false)
    (h3 : s.TCCR0B.testBit CS02 = false) :
    (srf04_init s).MCUCR.testBit ISC01 = false ∧ (srf04_init s).MCUCR.testBit ISC00 = true ∧
    (srf04_init s).GIMSK.testBit INT0 = true ∧
    (srf04_init s).TCCR0B.testBit CS02 = false ∧ (srf04_init s).TCCR0B.testBit CS01 = false ∧
    (srf04_init s).TCCR0B.testBit CS00 = true ∧
    (srf04_init s).TIMSK0.testBit TOIE0 = true ∧ (srf04_init s).sregI = true := by
  obtain ⟨r1, r2, r3, r4, _, _, r7⟩ := srf04_init_regs s
  have e1 : ((0 <<< ISC01) ||| (1 <<< ISC00) : Nat) = 1 := by decide
  have e2 : (1 <<< INT0 : Nat) = 64 := by decide
  have e3 : (1 <<< CS00 : Nat) = 1 := by decide
  have e4 : (1 <<< TOIE0 : Nat) = 1 := by decide
  have b10 : Nat.testBit 1 0 = true := by decide
  have b11 : Nat.testBit 1 1 = false := by decide
  have b12 : Nat.testBit 1 2 = false := by decide
  have b646 : Nat.testBit 64 6 = true := by decide
  rw [r1, r2, r3, r4, e1, e2, e3, e4]
  simp only [testBit_or_mod8]
  simp only [ISC01, ISC00, INT0, CS00, CS01, CS02, TOIE0] at h1 h2 h3 ⊢
  simp [h1, h2, h3, b10, b11, b12, b646, r7]

/-- Witness for C14 (amended), at the reset values with some unrelated bits set. -/
theorem srf04_init_configures_interrupts_witness :
    (srf04_init { zeroState with MCUCR := 0x40, GIMSK := 0x20 }).MCUCR.testBit ISC01 = false ∧
    (srf04_init { zeroState with MCUCR := 0x40, GIMSK := 0x20 }).MCUCR.testBit ISC00 = true ∧
    (srf04_init { zeroState with MCUCR := 0x40, GIMSK := 0x20 }).GIMSK.testBit INT0 = true ∧
    (srf04_init { zeroState with MCUCR := 0x40, GIMSK := 0x20 }).TCCR0B.testBit CS02 = false ∧
    (srf04_init { zeroState with MCUCR := 0x40, GIMSK := 0x20 }).TCCR0B.testBit CS01 = false ∧
    (srf04_init { zeroState with MCUCR := 0x40, GIMSK := 0x20 }).TCCR0B.testBit CS00 = true ∧
    (srf04_init { zeroState with MCUCR := 0x40, GIMSK := 0x20 }).TIMSK0.testBit TOIE0 = true ∧
    (srf04_init { zeroState with MCUCR := 0x40, GIMSK := 0x20 }).sregI = true :=
  srf04_init_configures_interrupts { zeroState with MCUCR := 0x40, GIMSK := 0x20 }
    (by decide) (by decide) (by decide)

/-- The edge handler stores `TCCR0B | (0 << CS00)`, that is, the value it read. -/
theorem INT0_vect_TCCR0B (p : Nat) (s : State) (h : s.TCCR0B < 256) :
    (INT0_vect p s).TCCR0B = s.TCCR0B := by
  simp only [INT0_vect, store, State.set]
  split_ifs <;> simp [Loc.width, CS00, Nat.mod_eq_of_lt h]

theorem edge_TCCR0B (p c : Nat) (s : State) (h : s.TCCR0B < 256) :
    (edge p c s).TCCR0B = s.TCCR0B :=
  INT0_vect_TCCR0B p { s with TCNT0 := c % 2 ^ 8 } h

/-- The overflow handler stores `TCCR0B | (0 << CS00)`, that is, the value it read. -/
theorem TIM0_OVF_vect_TCCR0B (s : State) (h : s.TCCR0B < 256) :
    (TIM0_OVF_vect s).TCCR0B = s.TCCR0B := by
  simp only [TIM0_OVF_vect, store, State.set]
  split_ifs <;> simp [Loc.width, CS00, Nat.mod_eq_of_lt h]

theorem overflows_TCCR0B (k : Nat) : ∀ s : State, s.TCCR0B < 256 →
    (overflows k s).TCCR0B = s.TCCR0B := by
  induction k with
  | zero => intro s _; rfl
  | succ k ih =>
    intro s h
    have h1 := TIM0_OVF_vect_TCCR0B s h
    have h2 := ih (TIM0_OVF_vect s) (by omega)
    simp only [overflows, Function.iterate_succ_apply] at h2 ⊢
    omega

theorem sonar_TCCR0B (s : State) : (sonar s).TCCR0B = s.TCCR0B := by
  simp [sonar, SONAR_TRIGGER_LOW, SONAR_TRIGGER_HIGH, _delay_us, store, State.set]

/-- Claim C15, evaluated on the code: `srf04_init()` leaves `TCCR0B = 1 << CS00`, and
after each terminal transition (a falling edge ending a cycle, an edge taken while
`running` is 0, the timeout) the bit `CS00` is still 1: `TCCR0B |= (0 << CS00)` clears
nothing. -/
theorem terminal_transitions_keep_CS00 :
    (srf04_init zeroState).TCCR0B = 1 <<< CS00 ∧
    (fallCycle 24 0 3 232 (srf04_init zeroState)).running = 0 ∧
    (fallCycle 24 0 3 232 (srf04_init zeroState)).TCCR0B.testBit CS00 = true ∧
    (srf04_init zeroState).running = 0 ∧
    (edge 24 0 (srf04_init zeroState)).TCCR0B.testBit CS00 = true ∧
    (timeoutCycle 24 0 (srf04_init zeroState)).running = 0 ∧
    (timeoutCycle 24 0 (srf04_init zeroState)).TCCR0B.testBit CS00 = true := by
  have h0 : (srf04_init zeroState).TCCR0B = 1 := by decide
  have hs : (sonar (srf04_init zeroState)).TCCR0B = 1 := by rw [sonar_TCCR0B, h0]
  have he : (edge 24 0 (sonar (srf04_init zeroState))).TCCR0B = 1 := by
    rw [edge_TCCR0B _ _ _ (by omega), hs]
  have hru : (edge 24 0 (sonar (srf04_init zeroState))).up = 1 := by decide
  have hrt : (edge 24 0 (sonar (srf04_init zeroState))).timerCounter = 0 := by decide
  have ho3 : (overflows 3 (edge 24 0 (sonar (srf04_init zeroState)))).TCCR0B = 1 := by
    rw [overflows_TCCR0B _ _ (by omega), he]
  have hf : (fallCycle 24 0 3 232 (srf04_init zeroState)).TCCR0B = 1 := by
    simp only [fallCycle]
    rw [edge_TCCR0B _ _ _ (by omega), ho3]
  have hfr := (clean_cycle 24 (Or.inl rfl) (sonar (srf04_init zeroState)) 0 3 232
    (by decide) (by decide) (by decide) (by decide) (by decide)).2.1
  have hi : (edge 24 0 (srf04_init zeroState)).TCCR0B = 1 := by
    rw [edge_TCCR0B _ _ _ (by omega), h0]
  have ht : (timeoutCycle 24 0 (srf04_init zeroState)).TCCR0B = 1 := by
    simp only [timeoutCycle]
    rw [overflows_TCCR0B _ _ (by omega), he]
  have htr := (overflows_timeout (edge 24 0 (sonar (srf04_init zeroState)))
    (by omega) hrt).2.1
  have b : Nat.testBit 1 CS00 = true := by decide
  refine ⟨by rw [h0]; decide, hfr, by rw [hf]; exact b, by decide, by rw [hi]; exact b,
    htr, by rw [ht]; exact b⟩

/-- Claim C16, counterexample: with `timerCounter = 5` the rising edge leaves
`timerCounter = 5`; and within a clean cycle it is another transition, the falling
edge, that resets `timerCounter` (here from 3 to 0). -/
theorem rising_edge_keeps_timerCounter :
    ¬ ((INT0_vect 24 { zeroState with running := 1, timerCounter := 5 }).timerCounter = 0) ∧
    (overflows 3 (edge 24 0 (sonar zeroState))).timerCounter = 3 ∧
    (edge 24 232 (overflows 3 (edge 24 0 (sonar zeroState)))).timerCounter = 0 := by
  decide

/-- Claim C16, amended: for every state `s` with `running = 1` and `up = 0`, the edge
handler (rising edge) sets `TCNT0 = 0` and leaves `timerCounter` unchanged; for every
state `f` with `running = 1` and `up` set, the edge handler (falling edge) sets
`timerCounter = 0`; on every state `t` the overflow handler does not reset
`timerCounter`, it keeps or increments it. -/
theorem edge_handler_resets (p : Nat) (s f t : State)
    (hrun : s.running = 1) (hup : s.up = 0) (hfrun : f.running = 1) (hfup : f.up ≠ 0) :
    (INT0_vect p s).TCNT0 = 0 ∧ (INT0_vect p s).timerCounter = s.timerCounter ∧
    (INT0_vect p f).timerCounter = 0 ∧
    ((TIM0_OVF_vect t).timerCounter = t.timerCounter ∨
      (TIM0_OVF_vect t).timerCounter = (t.timerCounter + 1) % 2 ^ 32) := by
  refine ⟨?_, ?_, ?_, ?_⟩
  · simp [INT0_vect, store, State.set, Loc.width, hrun, hup]
  · simp [INT0_vect, store, State.set, Loc.width, hrun, hup]
  · simp [INT0_vect, store, State.set, Loc.width, hfrun, hfup]
  · simp only [TIM0_OVF_vect, store, State.set]
    split_ifs <;> simp [Loc.width]

/-- Witness for C16 (amended): the rising and the falling edge of a cycle with 3
overflows. -/
theorem edge_handler_resets_witness :
    (INT0_vect 24 (sonar zeroState)).TCNT0 = 0 ∧
    (INT0_vect 24 (sonar zeroState)).timerCounter = (sonar zeroState).timerCounter ∧
    (INT0_vect 24 (overflows 3 (edge 24 0 (sonar zeroState)))).timerCounter = 0 ∧
    ((TIM0_OVF_vect (edge 24 0 (sonar zeroState))).timerCounter
        = (edge 24 0 (sonar zeroState)).timerCounter ∨
      (TIM0_OVF_vect (edge 24 0 (sonar zeroState))).timerCounter
        = ((edge 24 0 (sonar zeroState)).timerCounter + 1) % 2 ^ 32) :=
  edge_handler_resets 24 (sonar zeroState) (overflows 3 (edge 24 0 (sonar zeroState)))
    (edge 24 0 (sonar zeroState)) (by decide) (by decide) (by decide) (by decide)

/-! ## LCD initialisation, write order, main loop -/

theorem sent_lcdStore (r : LcdReg) (v : Nat) (s : LcdState) :
    instructionsSent (lcdStore r v s).log = instructionsSent s.log := by
  cases r <;> simp [lcdStore, instructionsSent]

theorem sent_lcd_delay_us (n : Nat) (s : LcdState) :
    instructionsSent (lcd_delay_us n s).log = instructionsSent s.log := by
  simp [lcd_delay_us, instructionsSent]

theorem sent_lcd_delay_ms (n : Nat) (s : LcdState) :
    instructionsSent (lcd_delay_ms n s).log = instructionsSent s.log := by
  simp [lcd_delay_ms, instructionsSent]

theorem sent_ite_lcdStore (c : Prop) [Decidable c] (r : LcdReg) (v : Nat) (s : LcdState) :
    instructionsSent (if c then lcdStore r v s else s).log = instructionsSent s.log := by
  split_ifs
  · exact sent_lcdStore r v s
  · rfl

/-- The nibble write `lcd_write_4d` passes no instruction byte of its own. -/
theorem sent_lcd_write_4d (b : Nat) (s : LcdState) :
    instructionsSent (lcd_write_4d b s).log = instructionsSent s.log := by
  simp only [lcd_write_4d, sent_lcd_delay_us, sent_lcdStore, sent_ite_lcdStore]

/-- Each call of `lcd_write_instruction_4d` adds its argument to the instructions
sent. -/
theorem sent_lcd_write_instruction_4d (b : Nat) (s : LcdState) :
    instructionsSent (lcd_write_instruction_4d b s).log
      = instructionsSent s.log ++ [b % 2 ^ 8] := by
  simp only [lcd_write_instruction_4d, sent_lcd_write_4d, sent_lcdStore]
  simp [instructionsSent]

/-- Claim C18, evaluated on the code: for every prior state, `lcd_init_4d()` sends
through `lcd_write_instruction_4d` the bytes `0x28, 0x08, 0x01, 0x06, 0x0C, 0x08` in
this order; the last display on/off control instruction among them is
`lcd_DisplayOff` (`0b00001000`), not `lcd_DisplayOn`. -/
theorem lcd_init_4d_ends_with_display_off (s : LcdState) :
    instructionsSent (lcd_init_4d s).log = instructionsSent s.log ++
      [lcd_FunctionSet4bit, lcd_DisplayOff, lcd_Clear, lcd_EntryMode, lcd_DisplayOn,
       lcd_DisplayOff] ∧
    lastDisplayControl (instructionsSent (lcd_init_4d s).log) = some lcd_DisplayOff ∧
    lcd_DisplayOff ≠ lcd_DisplayOn := by
  have h : instructionsSent (lcd_init_4d s).log = instructionsSent s.log ++
      [lcd_FunctionSet4bit, lcd_DisplayOff, lcd_Clear, lcd_EntryMode, lcd_DisplayOn,
       lcd_DisplayOff] := by
    simp only [lcd_init_4d, sent_lcd_delay_us, sent_lcd_delay_ms,
      sent_lcd_write_instruction_4d, sent_lcd_write_4d, sent_lcdStore]
    simp [lcd_FunctionSet4bit, lcd_DisplayOff, lcd_Clear, lcd_EntryMode, lcd_DisplayOn]
  refine ⟨h, ?_, by decide⟩
  have hf : List.filter isDisplayControl [lcd_FunctionSet4bit, lcd_DisplayOff, lcd_Clear,
      lcd_EntryMode, lcd_DisplayOn, lcd_DisplayOff]
      = [lcd_DisplayOff, lcd_DisplayOn] ++ [lcd_DisplayOff] := by decide
  rw [h, lastDisplayControl, List.filter_append, hf, ← List.append_assoc,
    List.getLast?_append]
  rfl

/-- Claim C19: for every state, the effects `t` of one run of the edge handler and
the effects `u` of one run of the overflow handler are such that every write to
`running` comes after a write to `distance` and is followed by no write to
`distance`. The edge handler writes `running` exactly in its falling-edge and idle
branches, the overflow handler exactly in its timeout branch. -/
theorem distance_written_before_running (p : Nat) (s : State) :
    ∃ t u : List Effect,
      (INT0_vect p s).trace = s.trace ++ t ∧ publicationOrder false t = true ∧
      (t.any (isWrite .running) = true ↔ (s.running = 0 ∨ s.up ≠ 0)) ∧
      (TIM0_OVF_vect s).trace = s.trace ++ u ∧ publicationOrder false u = true ∧
      (u.any (isWrite .running) = true ↔
        (s.up ≠ 0 ∧ 240 ≤ (s.timerCounter + 1) % 2 ^ 32)) := by
  have hI : ∃ t : List Effect,
      (INT0_vect p s).trace = s.trace ++ t ∧ publicationOrder false t = true ∧
      (t.any (isWrite .running) = true ↔ (s.running = 0 ∨ s.up ≠ 0)) := by
    by_cases hrun : s.running = 0
    · simp only [INT0_vect, store, State.set, hrun, ne_eq, not_true_eq_false, if_false,
        List.append_assoc, List.singleton_append, List.cons_append, List.nil_append]
      exact ⟨_, rfl, by simp [publicationOrder, isWrite, noWriteTo], by simp [isWrite]⟩
    · by_cases hup : s.up = 0
      · simp only [INT0_vect, store, State.set, hrun, hup, ne_eq, not_false_eq_true, if_true,
          List.append_assoc, List.singleton_append, List.cons_append, List.nil_append]
        exact ⟨_, rfl, by simp [publicationOrder, isWrite], by simp [isWrite]⟩
      · simp only [INT0_vect, store, State.set, hrun, hup, ne_eq, not_false_eq_true, if_true,
          if_false, List.append_assoc, List.singleton_append, List.cons_append,
          List.nil_append]
        exact ⟨_, rfl, by simp [publicationOrder, isWrite, noWriteTo], by simp [isWrite]⟩
  have hO : ∃ u : List Effect,
      (TIM0_OVF_vect s).trace = s.trace ++ u ∧ publicationOrder false u = true ∧
      (u.any (isWrite .running) = true ↔
        (s.up ≠ 0 ∧ 240 ≤ (s.timerCounter + 1) % 2 ^ 32)) := by
    by_cases hup : s.up = 0
    · simp only [TIM0_OVF_vect, hup, ne_eq, not_true_eq_false, if_false]
      exact ⟨[], by simp, by simp [publicationOrder], by simp⟩
    · by_cases ht : 240 ≤ (s.timerCounter + 1) % 2 ^ 32
      · simp only [TIM0_OVF_vect, store, State.set, Loc.width, hup, ht, ne_eq,
          not_false_eq_true, if_true, List.append_assoc, List.singleton_append,
          List.cons_append, List.nil_append]
        exact ⟨_, rfl, by simp [publicationOrder, isWrite, noWriteTo],
          by simp [isWrite, hup, ht]⟩
      · simp only [TIM0_OVF_vect, store, State.set, Loc.width, hup, ht, ne_eq,
          not_false_eq_true, if_true, if_false]
        exact ⟨_, rfl, by simp [publicationOrder, isWrite], by simp [isWrite, hup, ht]⟩
  obtain ⟨t, h1, h2, h3⟩ := hI
  obtain ⟨u, h4, h5, h6⟩ := hO
  exact ⟨t, u, h1, h2, h3, h4, h5, h6⟩

/-- Claim C20, counterexample: in the first pass of the loop after `main`'s
initialisation, `running` is not 0 at the point where `distance` is read (`sonar()`
has just set it to 1). -/
theorem first_pass_reads_while_running :
    ¬ ((main_loop_to_read (main_init mainZero)).hw.running = 0) := by
  decide

/-- Claim C20, amended: in every pass of the loop of `main`, run sequentially, at the
point where `distance` is read `running` is not 0: it is 1 when it was 0 at the top of
the pass (`sonar()` has just been called) and keeps its value otherwise; `distance`
still holds the value it had at the top of the pass. -/
theorem main_reads_distance_while_running (m : MainState) :
    (main_loop_to_read m).hw.running = (if m.hw.running = 0 then 1 else m.hw.running) ∧
    (main_loop_to_read m).hw.running ≠ 0 ∧
    (main_loop_to_read m).hw.distance = m.hw.distance := by
  by_cases h : m.hw.running = 0
  · have hs := sonar_vars (_delay_ms 60 m.hw)
    have e : (main_loop_to_read m).hw = (flipLed { m with
        lcdCalls := m.lcdCalls ++ [LcdCall.instruction (lcd_SetCursor ||| lcd_LineOne)],
        hw := sonar (_delay_ms 60 m.hw) }).hw := by
      simp [main_loop_to_read, h]
    have hf : ∀ x : MainState, (flipLed x).hw.running = x.hw.running ∧
        (flipLed x).hw.distance = x.hw.distance := by
      intro x
      simp only [flipLed]
      split_ifs <;> simp [LED_HIGH, LED_LOW, store, State.set]
    rw [e, (hf _).1, (hf _).2, if_pos h]
    have h1 : (sonar (_delay_ms 60 m.hw)).running = 1 := hs.1
    have h3 : (sonar (_delay_ms 60 m.hw)).distance = m.hw.distance := hs.2.2.1
    exact ⟨h1, fun h0 => by rw [h1] at h0; omega, h3⟩
  · simp [main_loop_to_read, h]

/-! ## Invariant of the ranging state machine, text buffer -/

/-- Every step keeps the relation "`up = 0` implies `timerCounter = 0`". -/
theorem step_keeps_count_invariant (p : Nat) (s : State) (st : Step)
    (h : s.up = 0 → s.timerCounter = 0) :
    (step p s st).up = 0 → (step p s st).timerCounter = 0 := by
  cases st with
  | init =>
    intro _
    exact (srf04_init_vars s).2.2.1
  | sonar =>
    intro hu
    have hv := sonar_vars s
    simp only [step] at hu ⊢
    rw [hv.2.2.2]
    exact h (by rw [← hv.2.1]; exact hu)
  | edge c =>
    intro hu
    simp only [step] at hu ⊢
    by_cases hrun : s.running = 0
    · obtain ⟨_, _, i3, i4⟩ := edge_idle p c s hrun
      rw [i4]
      exact h (by rw [← i3]; exact hu)
    · by_cases hup : s.up = 0
      · obtain ⟨r1, _, _, _, _⟩ := edge_rise p c s hrun hup
        omega
      · exact (edge_fall p c s hrun hup).2.2.2
  | overflow =>
    intro hu
    simp only [step] at hu ⊢
    have hk := TIM0_OVF_vect_up s
    have hup : s.up = 0 := by omega
    rw [TIM0_OVF_vect_idle s hup]
    exact h hup

/-- The relation holds after every sequence of steps when it holds before. -/
theorem run_keeps_count_invariant (p : Nat) (steps : List Step) : ∀ s : State,
    (s.up = 0 → s.timerCounter = 0) →
    (run p s steps).up = 0 → (run p s steps).timerCounter = 0 := by
  induction steps with
  | nil => intro s h; exact h
  | cons st rest ih =>
    intro s h
    exact ih (step p s st) (step_keeps_count_invariant p s st h)

/-- Claim C22: in every state reached from an initial state (`running = 0`, `up = 0`,
`timerCounter = 0`) by any sequence of `srf04_init`, `sonar`, edge-interrupt and
overflow-interrupt steps, if `up = 0` then `timerCounter = 0`; so the overflow count
is 0 when an edge is taken there, and still 0 after the handler has run. -/
theorem up_clear_implies_count_zero (p : Nat) (s0 : State) (steps : List Step) (c : Nat)
    (_hrun : s0.running = 0) (_hup : s0.up = 0) (htc : s0.timerCounter = 0)
    (h : (run p s0 steps).up = 0) :
    (run p s0 steps).timerCounter = 0 ∧
    (edge p c (run p s0 steps)).timerCounter = 0 := by
  have h0 := run_keeps_count_invariant p steps s0 (fun _ => htc) h
  refine ⟨h0, ?_⟩
  by_cases hr : (run p s0 steps).running = 0
  · rw [(edge_idle p c _ hr).2.2.2]
    exact h0
  · rw [(edge_rise p c _ hr h).2.2.2.1]
    exact h0

/-- Witness for C22: a cycle ended by a falling edge, a call of `srf04_init`, and a
new `sonar()`. -/
theorem up_clear_implies_count_zero_witness :
    (run 24 zeroState [Step.sonar, Step.edge 0, Step.overflow, Step.overflow, Step.edge 5,
      Step.init, Step.sonar]).timerCounter = 0 ∧
    (edge 24 9 (run 24 zeroState [Step.sonar, Step.edge 0, Step.overflow, Step.overflow,
      Step.edge 5, Step.init, Step.sonar])).timerCounter = 0 :=
  up_clear_implies_count_zero 24 zeroState
    [Step.sonar, Step.edge 0, Step.overflow, Step.overflow, Step.edge 5, Step.init, Step.sonar]
    9 (by decide) (by decide) (by decide) (by decide)

/-- Claim C23, evaluated on the code: for the ADC sample 1000, `itoa((int)1000,
buffer, 10)` produces the four characters `1000` and stores 5 bytes with the NUL, one
more than the 4 bytes of `buffer`; so does the largest 10-bit sample 1023, and the
16-bit sample 32768, converted to `-32768`, stores 7 bytes. -/
theorem itoa_overflows_buffer :
    itoa (toInt16 1000) = ['1', '0', '0', '0'] ∧
    itoaBytes (toInt16 1000) = 5 ∧ ¬ (itoaBytes (toInt16 1000) ≤ bufferSize) ∧
    itoaBytes (toInt16 1023) = 5 ∧
    itoa (toInt16 32768) = ['-', '3', '2', '7', '6', '8'] ∧
    itoaBytes (toInt16 32768) = 7 ∧
    itoaBytes (toInt16 999) = 4 := by
  decide

/-! ## Strobes of the LCD write functions -/

/-- Bits of a register after `REG &= ~m`. -/
theorem testBit_and_bitNot_mod8 (x m i : Nat) :
    ((x &&& bitNot m) % 2 ^ 8).testBit i = (decide (i < 8) && x.testBit i && !m.testBit i) := by
  rw [Nat.testBit_mod_two_pow, Nat.testBit_and]
  unfold bitNot
  rw [Nat.testBit_xor, Nat.testBit_two_pow_sub_one, Nat.testBit_mod_two_pow]
  by_cases h8 : i < 8
  · have h16 : i < 16 := by omega
    simp [h8, h16]
  · simp [h8]

theorem testBit_one_shiftLeft (k i : Nat) : (1 <<< k : Nat).testBit i = decide (i = k) := by
  rw [Nat.one_shiftLeft, Nat.testBit_two_pow]
  by_cases h : i = k
  · simp [h]
  · have h2 : ¬ k = i := fun e => h e.symm
    simp [h, h2]

/-- The C test `x & (1<<k)` is nonzero exactly when bit `k` of `x` is set. -/
theorem and_bit_ne_zero_iff (x k : Nat) : x &&& (1 <<< k) ≠ 0 ↔ x.testBit k = true := by
  constructor
  · intro h
    by_contra hb
    apply h
    apply Nat.eq_of_testBit_eq
    intro i
    rw [Nat.testBit_and, testBit_one_shiftLeft, Nat.zero_testBit]
    by_cases hi : i = k
    · subst hi
      simp [hb]
    · simp [hi]
  · intro hb h0
    have h1 : (x &&& (1 <<< k)).testBit k = true := by
      rw [Nat.testBit_and, testBit_one_shiftLeft, hb]
      simp
    rw [h0, Nat.zero_testBit] at h1
    exact Bool.noConfusion h1

theorem strobes_append (pins : LcdPins) (t1 t2 : List LcdEffect) : ∀ cur : Nat,
    strobes pins cur (t1 ++ t2) = strobes pins cur t1 ++ strobes pins (portAfter cur t1) t2 := by
  induction t1 with
  | nil => intro cur; rfl
  | cons e t ih =>
    intro cur
    simp only [List.cons_append, strobes, portAfter]
    cases portWrite e with
    | none => exact ih cur
    | some v =>
      simp only
      split_ifs
      · exact congrArg (List.cons (strobeAt pins v)) (ih v)
      · exact ih v

theorem portAfter_append (t1 t2 : List LcdEffect) : ∀ cur : Nat,
    portAfter cur (t1 ++ t2) = portAfter (portAfter cur t1) t2 := by
  induction t1 with
  | nil => intro cur; rfl
  | cons e t ih =>
    intro cur
    simp only [List.cons_append, portAfter]
    cases portWrite e with
    | none => exact ih cur
    | some v => exact ih v

theorem tracks_refl (pins : LcdPins) (s : LcdState) : Tracks pins s s [] :=
  ⟨[], by simp, rfl, rfl⟩

/-- One more logged effect that is not a port write. -/
theorem tracks_other (pins : LcdPins) (s0 s s1 : LcdState) (out : List Strobe) (e : LcdEffect)
    (h : Tracks pins s0 s out) (hl : s1.log = s.log ++ [e]) (hp : s1.PORTA = s.PORTA)
    (he : portWrite e = none) : Tracks pins s0 s1 out := by
  obtain ⟨t, h1, h2, h3⟩ := h
  refine ⟨t ++ [e], by rw [hl, h1, List.append_assoc], ?_, ?_⟩
  · rw [portAfter_append, h2, hp]
    simp [portAfter, he]
  · rw [strobes_append, h3, h2]
    simp [strobes, he]

/-- A port write while E is low: no strobe. -/
theorem tracks_store_low (pins : LcdPins) (s0 s : LcdState) (out : List Strobe) (v : Nat)
    (h : Tracks pins s0 s out) (hE : s.PORTA.testBit pins.E = false) :
    Tracks pins s0 (lcdStore .PORTA v s) out := by
  obtain ⟨t, h1, h2, h3⟩ := h
  refine ⟨t ++ [LcdEffect.write .PORTA (v % 2 ^ 8)], by simp [lcdStore, h1], ?_, ?_⟩
  · rw [portAfter_append, h2]
    simp [portAfter, portWrite, lcdStore]
  · rw [strobes_append, h3, h2]
    simp [strobes, portWrite, hE]

/-- A port write that takes E from high to low: one strobe with the value written. -/
theorem tracks_store_fall (pins : LcdPins) (s0 s : LcdState) (out : List Strobe) (v : Nat)
    (h : Tracks pins s0 s out) (hE : s.PORTA.testBit pins.E = true)
    (hv : (v % 2 ^ 8).testBit pins.E = false) :
    Tracks pins s0 (lcdStore .PORTA v s) (out ++ [strobeAt pins (v % 2 ^ 8)]) := by
  obtain ⟨t, h1, h2, h3⟩ := h
  refine ⟨t ++ [LcdEffect.write .PORTA (v % 2 ^ 8)], by simp [lcdStore, h1], ?_, ?_⟩
  · rw [portAfter_append, h2]
    simp [portAfter, portWrite, lcdStore]
  · have hv0 : (v % 256).testBit pins.E = false := hv
    rw [strobes_append, h3, h2]
    simp [strobes, portWrite, hE, hv0]

theorem tracks_delay_us (pins : LcdPins) (s0 s : LcdState) (out : List Strobe) (n : Nat)
    (h : Tracks pins s0 s out) : Tracks pins s0 (lcd_delay_us n s) out :=
  tracks_other pins s0 s _ out (LcdEffect.delay_us n) h rfl rfl rfl

theorem tracks_store_DDRA (pins : LcdPins) (s0 s : LcdState) (out : List Strobe) (v : Nat)
    (h : Tracks pins s0 s out) : Tracks pins s0 (lcdStore .DDRA v s) out :=
  tracks_other pins s0 s _ out (LcdEffect.write .DDRA (v % 2 ^ 8)) h rfl rfl rfl

/-- The strobes logged by `s` since `s0`, read off a `Tracks` fact. -/
theorem strobes_of_tracks (pins : LcdPins) (s0 s : LcdState) (out : List Strobe)
    (h : Tracks pins s0 s out) :
    strobes pins s0.PORTA (effectsSince s0.log.length s) = out := by
  obtain ⟨t, h1, _, h3⟩ := h
  rw [effectsSince, h1, List.drop_left, h3]

/-- Port bits after `PORT &= ~(1<<k)`. -/
theorem port_clear (s : LcdState) (k i : Nat) :
    (lcdStore .PORTA (s.PORTA &&& bitNot (1 <<< k)) s).PORTA.testBit i
      = (decide (i < 8) && s.PORTA.testBit i && !decide (i = k)) := by
  show ((s.PORTA &&& bitNot (1 <<< k)) % 2 ^ 8).testBit i = _
  rw [testBit_and_bitNot_mod8, testBit_one_shiftLeft]

/-- Port bits after `PORT |= (1<<k)`. -/
theorem port_set (s : LcdState) (k i : Nat) :
    (lcdStore .PORTA (s.PORTA ||| (1 <<< k)) s).PORTA.testBit i
      = (decide (i < 8) && (s.PORTA.testBit i || decide (i = k))) := by
  show ((s.PORTA ||| (1 <<< k)) % 2 ^ 8).testBit i = _
  rw [testBit_or_mod8, testBit_one_shiftLeft]

/-- Port bits after the two statements for one data line. -/
theorem dataBit_port (k : Nat) (c : Prop) [Decidable c] (s : LcdState) (i : Nat) :
    (dataBit k c s).PORTA.testBit i
      = (decide (i < 8) && (if i = k then decide c else s.PORTA.testBit i)) := by
  unfold dataBit
  by_cases hc : c
  · simp only [hc, if_true]
    rw [port_set, port_clear]
    by_cases hi : i = k <;> by_cases h8 : i < 8 <;> simp [hi, h8]
  · simp only [hc, if_false]
    rw [port_clear]
    by_cases hi : i = k <;> by_cases h8 : i < 8 <;> simp [hi, h8]

/-- The statements for a data line produce no strobe while E is low. -/
theorem dataBit_tracks (pins : LcdPins) (s0 s : LcdState) (out : List Strobe) (k : Nat)
    (c : Prop) [Decidable c] (h : Tracks pins s0 s out)
    (hE : s.PORTA.testBit pins.E = false) : Tracks pins s0 (dataBit k c s) out := by
  have h1 := tracks_store_low pins s0 s out (s.PORTA &&& bitNot (1 <<< k)) h hE
  have hE1 : (lcdStore .PORTA (s.PORTA &&& bitNot (1 <<< k)) s).PORTA.testBit pins.E = false := by
    rw [port_clear, hE]
    simp
  unfold dataBit
  by_cases hc : c
  · simp only [hc, if_true]
    exact tracks_store_low pins s0 _ out _ h1 hE1
  · simp only [hc, if_false]
    exact h1

/-- Port bits after the E pulse. -/
theorem pulseE_port (e : Nat) (s : LcdState) (i : Nat) :
    (pulseE e s).PORTA.testBit i = (decide (i < 8) && s.PORTA.testBit i && !decide (i = e)) := by
  show (lcdStore .PORTA ((lcd_delay_us 1 (lcdStore .PORTA (s.PORTA ||| (1 <<< e)) s)).PORTA
    &&& bitNot (1 <<< e)) (lcd_delay_us 1 (lcdStore .PORTA (s.PORTA ||| (1 <<< e)) s))).PORTA.testBit i
    = _
  rw [port_clear]
  show (decide (i < 8) && (lcdStore .PORTA (s.PORTA ||| (1 <<< e)) s).PORTA.testBit i
    && !decide (i = e)) = _
  rw [port_set]
  by_cases hi : i = e <;> by_cases h8 : i < 8 <;> simp [hi, h8]

/-- The E pulse started with E low produces one strobe, with the lines as they are
after the pulse. -/
theorem pulseE_tracks (pins : LcdPins) (s0 s : LcdState) (out : List Strobe)
    (h : Tracks pins s0 s out) (hE : s.PORTA.testBit pins.E = false) (h8 : pins.E < 8) :
    Tracks pins s0 (pulseE pins.E s) (out ++ [strobeAt pins (pulseE pins.E s).PORTA]) := by
  have h1 := tracks_store_low pins s0 s out (s.PORTA ||| (1 <<< pins.E)) h hE
  have h2 := tracks_delay_us pins s0 _ out 1 h1
  have hE2 : (lcd_delay_us 1 (lcdStore .PORTA (s.PORTA ||| (1 <<< pins.E)) s)).PORTA.testBit
      pins.E = true := by
    show (lcdStore .PORTA (s.PORTA ||| (1 <<< pins.E)) s).PORTA.testBit pins.E = true
    rw [port_set]
    simp [h8]
  have hv : (((lcd_delay_us 1 (lcdStore .PORTA (s.PORTA ||| (1 <<< pins.E)) s)).PORTA
      &&& bitNot (1 <<< pins.E)) % 2 ^ 8).testBit pins.E = false := by
    rw [testBit_and_bitNot_mod8, testBit_one_shiftLeft]
    simp
  have h3 := tracks_store_fall pins s0 _ out _ h2 hE2 hv
  exact tracks_delay_us pins s0 _ _ 1 h3

theorem lcd_write_4d_eq (b : Nat) (s : LcdState) :
    lcd_write_4d b s = pulseE lcd_E_bit (dataBit lcd_D4_bit (b &&& (1 <<< 4) ≠ 0)
      (dataBit lcd_D5_bit (b &&& (1 <<< 5) ≠ 0) (dataBit lcd_D6_bit (b &&& (1 <<< 6) ≠ 0)
        (dataBit lcd_D7_bit (b &&& (1 <<< 7) ≠ 0) s)))) :=
  rfl

/-- Port bits after `lcd_write_4d(b)`. -/
theorem lcd_write_4d_port (b : Nat) (s : LcdState) :
    (lcd_write_4d b s).PORTA.testBit lcd_E_bit = false ∧
    (lcd_write_4d b s).PORTA.testBit lcd_RS_bit = s.PORTA.testBit lcd_RS_bit ∧
    (lcd_write_4d b s).PORTA.testBit lcd_D7_bit = b.testBit 7 ∧
    (lcd_write_4d b s).PORTA.testBit lcd_D6_bit = b.testBit 6 ∧
    (lcd_write_4d b s).PORTA.testBit lcd_D5_bit = b.testBit 5 ∧
    (lcd_write_4d b s).PORTA.testBit lcd_D4_bit = b.testBit 4 := by
  have h7 := and_bit_ne_zero_iff b 7
  have h6 := and_bit_ne_zero_iff b 6
  have h5 := and_bit_ne_zero_iff b 5
  have h4 := and_bit_ne_zero_iff b 4
  simp only [lcd_write_4d_eq, pulseE_port, dataBit_port, lcd_E_bit, lcd_RS_bit, lcd_D7_bit,
    lcd_D6_bit, lcd_D5_bit, lcd_D4_bit, h7, h6, h5, h4]
  simp

/-- The statements for a data line other than E leave E low. -/
theorem dataBit_E_low (e k : Nat) (c : Prop) [Decidable c] (s : LcdState)
    (hE : s.PORTA.testBit e = false) (hk : e ≠ k) :
    (dataBit k c s).PORTA.testBit e = false := by
  rw [dataBit_port, if_neg hk, hE]
  simp

/-- The strobe of `lcd_write_4d(b)` entered with E low: RS as it was, and bits 7..4 of
`b` on D7..D4. -/
theorem lcd_write_4d_tracks (s0 s : LcdState) (out : List Strobe) (b : Nat)
    (h : Tracks pins4d s0 s out) (hE : s.PORTA.testBit lcd_E_bit = false) :
    Tracks pins4d s0 (lcd_write_4d b s)
      (out ++ [{ rw := false, rs := s.PORTA.testBit lcd_RS_bit, d7 := b.testBit 7,
                 d6 := b.testBit 6, d5 := b.testBit 5, d4 := b.testBit 4 }]) := by
  have t7 := dataBit_tracks pins4d s0 s out lcd_D7_bit (b &&& (1 <<< 7) ≠ 0) h hE
  have e7 := dataBit_E_low lcd_E_bit lcd_D7_bit (b &&& (1 <<< 7) ≠ 0) s hE (by decide)
  have t6 := dataBit_tracks pins4d s0 _ out lcd_D6_bit (b &&& (1 <<< 6) ≠ 0) t7 e7
  have e6 := dataBit_E_low lcd_E_bit lcd_D6_bit (b &&& (1 <<< 6) ≠ 0) _ e7 (by decide)
  have t5 := dataBit_tracks pins4d s0 _ out lcd_D5_bit (b &&& (1 <<< 5) ≠ 0) t6 e6
  have e5 := dataBit_E_low lcd_E_bit lcd_D5_bit (b &&& (1 <<< 5) ≠ 0) _ e6 (by decide)
  have t4 := dataBit_tracks pins4d s0 _ out lcd_D4_bit (b &&& (1 <<< 4) ≠ 0) t5 e5
  have e4 := dataBit_E_low lcd_E_bit lcd_D4_bit (b &&& (1 <<< 4) ≠ 0) _ e5 (by decide)
  have tp := pulseE_tracks pins4d s0 _ out t4 e4 (by decide)
  obtain ⟨_, p2, p3, p4, p5, p6⟩ := lcd_write_4d_port b s
  have hs : strobeAt pins4d (lcd_write_4d b s).PORTA
      = { rw := false, rs := s.PORTA.testBit lcd_RS_bit, d7 := b.testBit 7,
          d6 := b.testBit 6, d5 := b.testBit 5, d4 := b.testBit 4 } := by
    simp only [strobeAt, pins4d, p2, p3, p4, p5, p6]
  rw [← hs]
  exact tp

/-- The two strobes of the 4d write functions after the RS and E set-up: RS as set up,
then the upper and the lower four bits of `b`. -/
theorem lcd_write_4d_twice_tracks (s0 s : LcdState) (out : List Strobe) (b : Nat)
    (h : Tracks pins4d s0 s out) (hE : s.PORTA.testBit lcd_E_bit = false) :
    Tracks pins4d s0 (lcd_write_4d ((b % 2 ^ 8) <<< 4 % 2 ^ 8) (lcd_write_4d (b % 2 ^ 8) s))
      (out ++ [{ rw := false, rs := s.PORTA.testBit lcd_RS_bit, d7 := b.testBit 7,
                 d6 := b.testBit 6, d5 := b.testBit 5, d4 := b.testBit 4 },
               { rw := false, rs := s.PORTA.testBit lcd_RS_bit, d7 := b.testBit 3,
                 d6 := b.testBit 2, d5 := b.testBit 1, d4 := b.testBit 0 }]) := by
  have t1 := lcd_write_4d_tracks s0 s out (b % 2 ^ 8) h hE
  obtain ⟨p1, p2, _⟩ := lcd_write_4d_port (b % 2 ^ 8) s
  have t2 := lcd_write_4d_tracks s0 _ _ ((b % 2 ^ 8) <<< 4 % 2 ^ 8) t1 p1
  rw [p2] at t2
  simp only [Nat.testBit_mod_two_pow, Nat.testBit_shiftLeft, List.append_assoc,
    List.singleton_append] at t2
  simpa using t2

/-- Strobes of `lcd_write_instruction_4d(b)` entered with E low. -/
theorem lcd_write_instruction_4d_tracks (s : LcdState) (b : Nat)
    (hE : s.PORTA.testBit lcd_E_bit = false) :
    Tracks pins4d s (lcd_write_instruction_4d b s)
      [{ rw := false, rs := false, d7 := b.testBit 7, d6 := b.testBit 6, d5 := b.testBit 5,
         d4 := b.testBit 4 },
       { rw := false, rs := false, d7 := b.testBit 3, d6 := b.testBit 2, d5 := b.testBit 1,
         d4 := b.testBit 0 }] := by
  let s1 : LcdState := { s with log := s.log ++ [LcdEffect.instruction (b % 2 ^ 8)] }
  let s2 : LcdState := lcdStore .PORTA (s1.PORTA &&& bitNot (1 <<< lcd_RS_bit)) s1
  let s3 : LcdState := lcdStore .PORTA (s2.PORTA &&& bitNot (1 <<< lcd_E_bit)) s2
  have t1 : Tracks pins4d s s1 [] :=
    tracks_other pins4d s s s1 [] _ (tracks_refl pins4d s) rfl rfl rfl
  have t2 : Tracks pins4d s s2 [] := tracks_store_low pins4d s s1 [] _ t1 hE
  have e2 : s2.PORTA.testBit lcd_E_bit = false := by
    show (lcdStore .PORTA (s1.PORTA &&& bitNot (1 <<< lcd_RS_bit)) s1).PORTA.testBit _ = _
    rw [port_clear]
    show (_ && s.PORTA.testBit lcd_E_bit && _) = false
    rw [hE]
    simp
  have r2 : s2.PORTA.testBit lcd_RS_bit = false := by
    show (lcdStore .PORTA (s1.PORTA &&& bitNot (1 <<< lcd_RS_bit)) s1).PORTA.testBit _ = _
    rw [port_clear]
    simp
  have t3 : Tracks pins4d s s3 [] := tracks_store_low pins4d s s2 [] _ t2 e2
  have e3 : s3.PORTA.testBit lcd_E_bit = false := by
    show (lcdStore .PORTA (s2.PORTA &&& bitNot (1 <<< lcd_E_bit)) s2).PORTA.testBit _ = _
    rw [port_clear]
    simp
  have r3 : s3.PORTA.testBit lcd_RS_bit = false := by
    show (lcdStore .PORTA (s2.PORTA &&& bitNot (1 <<< lcd_E_bit)) s2).PORTA.testBit _ = _
    rw [port_clear, r2]
    simp
  have t4 := lcd_write_4d_twice_tracks s s3 [] b t3 e3
  rw [r3] at t4
  exact t4

/-- Strobes of `lcd_write_character_4d(b)` entered with E low. -/
theorem lcd_write_character_4d_tracks (s : LcdState) (b : Nat)
    (hE : s.PORTA.testBit lcd_E_bit = false) :
    Tracks pins4d s (lcd_write_character_4d b s)
      [{ rw := false, rs := true, d7 := b.testBit 7, d6 := b.testBit 6, d5 := b.testBit 5,
         d4 := b.testBit 4 },
       { rw := false, rs := true, d7 := b.testBit 3, d6 := b.testBit 2, d5 := b.testBit 1,
         d4 := b.testBit 0 }] := by
  let s1 : LcdState := { s with log := s.log ++ [LcdEffect.character (b % 2 ^ 8)] }
  let s2 : LcdState := lcdStore .PORTA (s1.PORTA ||| (1 <<< lcd_RS_bit)) s1
  let s3 : LcdState := lcdStore .PORTA (s2.PORTA &&& bitNot (1 <<< lcd_E_bit)) s2
  have t1 : Tracks pins4d s s1 [] :=
    tracks_other pins4d s s s1 [] _ (tracks_refl pins4d s) rfl rfl rfl
  have t2 : Tracks pins4d s s2 [] := tracks_store_low pins4d s s1 [] _ t1 hE
  have e2 : s2.PORTA.testBit lcd_E_bit = false := by
    show (lcdStore .PORTA (s1.PORTA ||| (1 <<< lcd_RS_bit)) s1).PORTA.testBit _ = _
    rw [port_set]
    show (_ && (s.PORTA.testBit lcd_E_bit || _)) = false
    rw [hE]
    simp [lcd_E_bit, lcd_RS_bit]
  have r2 : s2.PORTA.testBit lcd_RS_bit = true := by
    show (lcdStore .PORTA (s1.PORTA ||| (1 <<< lcd_RS_bit)) s1).PORTA.testBit _ = _
    rw [port_set]
    simp [lcd_RS_bit]
  have t3 : Tracks pins4d s s3 [] := tracks_store_low pins4d s s2 [] _ t2 e2
  have e3 : s3.PORTA.testBit lcd_E_bit = false := by
    show (lcdStore .PORTA (s2.PORTA &&& bitNot (1 <<< lcd_E_bit)) s2).PORTA.testBit _ = _
    rw [port_clear]
    simp
  have r3 : s3.PORTA.testBit lcd_RS_bit = true := by
    show (lcdStore .PORTA (s2.PORTA &&& bitNot (1 <<< lcd_E_bit)) s2).PORTA.testBit _ = _
    rw [port_clear, r2]
    simp [lcd_E_bit, lcd_RS_bit]
  have t4 := lcd_write_4d_twice_tracks s s3 [] b t3 e3
  rw [r3] at t4
  exact t4

/-! ### The busy-flag driver `lcd.c` -/

theorem store_clear_other (s : LcdState) (k i : Nat) (hk : i ≠ k) (h8 : i < 8) :
    (lcdStore .PORTA (s.PORTA &&& bitNot (1 <<< k)) s).PORTA.testBit i = s.PORTA.testBit i := by
  rw [port_clear]
  simp [hk, h8]

theorem store_clear_self (s : LcdState) (k : Nat) :
    (lcdStore .PORTA (s.PORTA &&& bitNot (1 <<< k)) s).PORTA.testBit k = false := by
  rw [port_clear]
  simp

theorem store_set_other (s : LcdState) (k i : Nat) (hk : i ≠ k) (h8 : i < 8) :
    (lcdStore .PORTA (s.PORTA ||| (1 <<< k)) s).PORTA.testBit i = s.PORTA.testBit i := by
  rw [port_set]
  simp [hk, h8]

theorem store_set_self (s : LcdState) (k : Nat) (h8 : k < 8) :
    (lcdStore .PORTA (s.PORTA ||| (1 <<< k)) s).PORTA.testBit k = true := by
  rw [port_set]
  simp [h8]

theorem lcd_write_eq (b : Nat) (s : LcdState) :
    lcd_write b s = pulseE LcdH.lcd_E_bit (dataBit LcdH.lcd_D4_bit (b &&& (1 <<< 4) ≠ 0)
      (dataBit LcdH.lcd_D5_bit (b &&& (1 <<< 5) ≠ 0)
        (dataBit LcdH.lcd_D6_bit (b &&& (1 <<< 6) ≠ 0)
          (dataBit LcdH.lcd_D7_bit (b &&& (1 <<< 7) ≠ 0) s)))) :=
  rfl

/-- Port bits after `lcd_write(b)`. -/
theorem lcd_write_port (b : Nat) (s : LcdState) :
    (lcd_write b s).PORTA.testBit LcdH.lcd_E_bit = false ∧
    (lcd_write b s).PORTA.testBit LcdH.lcd_RS_bit = s.PORTA.testBit LcdH.lcd_RS_bit ∧
    (lcd_write b s).PORTA.testBit LcdH.lcd_RW_bit = s.PORTA.testBit LcdH.lcd_RW_bit ∧
    (lcd_write b s).PORTA.testBit LcdH.lcd_D7_bit = b.testBit 7 ∧
    (lcd_write b s).PORTA.testBit LcdH.lcd_D6_bit = b.testBit 6 ∧
    (lcd_write b s).PORTA.testBit LcdH.lcd_D5_bit = b.testBit 5 ∧
    (lcd_write b s).PORTA.testBit LcdH.lcd_D4_bit = b.testBit 4 := by
  have h7 := and_bit_ne_zero_iff b 7
  have h6 := and_bit_ne_zero_iff b 6
  have h5 := and_bit_ne_zero_iff b 5
  have h4 := and_bit_ne_zero_iff b 4
  simp only [lcd_write_eq, pulseE_port, dataBit_port, LcdH.lcd_E_bit, LcdH.lcd_RS_bit,
    LcdH.lcd_RW_bit, LcdH.lcd_D7_bit, LcdH.lcd_D6_bit, LcdH.lcd_D5_bit, LcdH.lcd_D4_bit,
    h7, h6, h5, h4]
  simp

/-- The strobe of `lcd_write(b)` entered with E low: RW and RS as they were, and bits
7..4 of `b` on D7..D4. -/
theorem lcd_write_tracks (s0 s : LcdState) (out : List Strobe) (b : Nat)
    (h : Tracks pinsH s0 s out) (hE : s.PORTA.testBit LcdH.lcd_E_bit = false) :
    Tracks pinsH s0 (lcd_write b s)
      (out ++ [{ rw := s.PORTA.testBit LcdH.lcd_RW_bit, rs := s.PORTA.testBit LcdH.lcd_RS_bit,
                 d7 := b.testBit 7, d6 := b.testBit 6, d5 := b.testBit 5,
                 d4 := b.testBit 4 }]) := by
  have t7 := dataBit_tracks pinsH s0 s out LcdH.lcd_D7_bit (b &&& (1 <<< 7) ≠ 0) h hE
  have e7 := dataBit_E_low LcdH.lcd_E_bit LcdH.lcd_D7_bit (b &&& (1 <<< 7) ≠ 0) s hE
    (by decide)
  have t6 := dataBit_tracks pinsH s0 _ out LcdH.lcd_D6_bit (b &&& (1 <<< 6) ≠ 0) t7 e7
  have e6 := dataBit_E_low LcdH.lcd_E_bit LcdH.lcd_D6_bit (b &&& (1 <<< 6) ≠ 0) _ e7
    (by decide)
  have t5 := dataBit_tracks pinsH s0 _ out LcdH.lcd_D5_bit (b &&& (1 <<< 5) ≠ 0) t6 e6
  have e5 := dataBit_E_low LcdH.lcd_E_bit LcdH.lcd_D5_bit (b &&& (1 <<< 5) ≠ 0) _ e6
    (by decide)
  have t4 := dataBit_tracks pinsH s0 _ out LcdH.lcd_D4_bit (b &&& (1 <<< 4) ≠ 0) t5 e5
  have e4 := dataBit_E_low LcdH.lcd_E_bit LcdH.lcd_D4_bit (b &&& (1 <<< 4) ≠ 0) _ e5
    (by decide)
  have tp := pulseE_tracks pinsH s0 _ out t4 e4 (by decide)
  obtain ⟨_, p2, p3, p4, p5, p6, p7⟩ := lcd_write_port b s
  have hs : strobeAt pinsH (lcd_write b s).PORTA
      = { rw := s.PORTA.testBit LcdH.lcd_RW_bit, rs := s.PORTA.testBit LcdH.lcd_RS_bit,
          d7 := b.testBit 7, d6 := b.testBit 6, d5 := b.testBit 5, d4 := b.testBit 4 } := by
    simp only [strobeAt, pinsH, p2, p3, p4, p5, p6, p7]
  rw [← hs]
  exact tp

/-- The two strobes of the write functions of `lcd.c` after their set-up of RW, RS and
E: the upper, then the lower four bits of `b`. -/
theorem lcd_write_twice_tracks (s0 s : LcdState) (out : List Strobe) (b : Nat)
    (h : Tracks pinsH s0 s out) (hE : s.PORTA.testBit LcdH.lcd_E_bit = false) :
    Tracks pinsH s0 (lcd_write ((b % 2 ^ 8) <<< 4 % 2 ^ 8) (lcd_write (b % 2 ^ 8) s))
      (out ++ [{ rw := s.PORTA.testBit LcdH.lcd_RW_bit,
                 rs := s.PORTA.testBit LcdH.lcd_RS_bit, d7 := b.testBit 7,
                 d6 := b.testBit 6, d5 := b.testBit 5, d4 := b.testBit 4 },
               { rw := s.PORTA.testBit LcdH.lcd_RW_bit,
                 rs := s.PORTA.testBit LcdH.lcd_RS_bit, d7 := b.testBit 3,
                 d6 := b.testBit 2, d5 := b.testBit 1, d4 := b.testBit 0 }]) := by
  have t1 := lcd_write_tracks s0 s out (b % 2 ^ 8) h hE
  obtain ⟨p1, p2, p3, _⟩ := lcd_write_port (b % 2 ^ 8) s
  have t2 := lcd_write_tracks s0 _ _ ((b % 2 ^ 8) <<< 4 % 2 ^ 8) t1 p1
  rw [p2, p3] at t2
  simp only [Nat.testBit_mod_two_pow, Nat.testBit_shiftLeft, List.append_assoc,
    List.singleton_append] at t2
  simpa using t2

/-- An E pulse leaves RW, RS and D7..D4 of `lcd.h` as they were. -/
theorem pulseE_strobeAt (s : LcdState) :
    strobeAt pinsH (pulseE LcdH.lcd_E_bit s).PORTA = strobeAt pinsH s.PORTA := by
  simp only [strobeAt, pinsH, pulseE_port, LcdH.lcd_E_bit, LcdH.lcd_RS_bit, LcdH.lcd_RW_bit,
    LcdH.lcd_D7_bit, LcdH.lcd_D6_bit, LcdH.lcd_D5_bit, LcdH.lcd_D4_bit]
  simp

theorem pulseE_E_low (e : Nat) (s : LcdState) : (pulseE e s).PORTA.testBit e = false := by
  rw [pulseE_port]
  simp

/-- One pass of the busy-flag loop entered with E low: two strobes with the lines as
they are, E low again afterwards. -/
theorem lcd_check_BF_pass_tracks (s0 s : LcdState) (out : List Strobe)
    (h : Tracks pinsH s0 s out) (hE : s.PORTA.testBit LcdH.lcd_E_bit = false) :
    Tracks pinsH s0 (lcd_check_BF_pass s)
      (out ++ [strobeAt pinsH s.PORTA, strobeAt pinsH s.PORTA]) ∧
    (lcd_check_BF_pass s).PORTA.testBit LcdH.lcd_E_bit = false ∧
    strobeAt pinsH (lcd_check_BF_pass s).PORTA = strobeAt pinsH s.PORTA := by
  have e : lcd_check_BF_pass s = pulseE LcdH.lcd_E_bit (pulseE LcdH.lcd_E_bit s) := rfl
  have t1 := pulseE_tracks pinsH s0 s out h hE (by decide)
  have e1 : (pulseE LcdH.lcd_E_bit s).PORTA.testBit LcdH.lcd_E_bit = false := pulseE_E_low _ s
  have t2 := pulseE_tracks pinsH s0 _ _ t1 e1 (by decide)
  have a1 : strobeAt pinsH (pulseE pinsH.E s).PORTA = strobeAt pinsH s.PORTA :=
    pulseE_strobeAt s
  have a2 : strobeAt pinsH (pulseE pinsH.E (pulseE pinsH.E s)).PORTA = strobeAt pinsH s.PORTA := by
    have := pulseE_strobeAt (pulseE LcdH.lcd_E_bit s)
    rw [pulseE_strobeAt s] at this
    exact this
  rw [a1, a2, List.append_assoc] at t2
  rw [e]
  exact ⟨t2, pulseE_E_low _ _, a2⟩

/-- The busy-flag loop on values that read busy, then clear: it returns after
`busy.length + 1` passes, with two strobes per pass. -/
theorem lcd_check_BF_loop_tracks (busy : List Nat) (clear : Nat) (rest : List Nat)
    (hclear : (clear % 2 ^ 8) &&& (1 <<< LcdH.lcd_D7_bit) = 0) :
    ∀ (s0 s : LcdState) (out : List Strobe),
    (∀ x ∈ busy, (x % 2 ^ 8) &&& (1 <<< LcdH.lcd_D7_bit) ≠ 0) →
    Tracks pinsH s0 s out → s.PORTA.testBit LcdH.lcd_E_bit = false →
    ∃ s1, lcd_check_BF_loop (busy ++ clear :: rest) s = some (s1, rest) ∧
      Tracks pinsH s0 s1
        (out ++ List.replicate (2 * (busy.length + 1)) (strobeAt pinsH s.PORTA)) ∧
      s1.PORTA.testBit LcdH.lcd_E_bit = false ∧
      strobeAt pinsH s1.PORTA = strobeAt pinsH s.PORTA := by
  induction busy with
  | nil =>
    intro s0 s out _ h hE
    obtain ⟨t, e, a⟩ := lcd_check_BF_pass_tracks s0 s out h hE
    refine ⟨lcd_check_BF_pass s, ?_, t, e, a⟩
    simp only [List.nil_append, lcd_check_BF_loop, hclear, ne_eq, not_true_eq_false, if_false]
  | cons x busy ih =>
    intro s0 s out hb h hE
    obtain ⟨t, e, a⟩ := lcd_check_BF_pass_tracks s0 s out h hE
    have hx := hb x (List.mem_cons_self x busy)
    obtain ⟨s1, r1, r2, r3, r4⟩ := ih s0 (lcd_check_BF_pass s) _
      (fun y hy => hb y (List.mem_cons_of_mem x hy)) t e
    refine ⟨s1, ?_, ?_, r3, by rw [r4, a]⟩
    · simp only [List.cons_append, lcd_check_BF_loop, hx, ne_eq, not_false_eq_true, if_true]
      exact r1
    · rw [a] at r2
      have hn : 2 * ((x :: busy).length + 1) = 2 * (busy.length + 1) + 1 + 1 := by
        simp only [List.length_cons]
        omega
      rw [hn, List.replicate_succ, List.replicate_succ]
      simpa using r2

/-- The call `lcd_check_BF()` entered with E low, on values of `PINA` that read busy,
then clear: it returns, its strobes are all read strobes (RW high, RS low), two per
pass, and E, RW are low afterwards. -/
theorem lcd_check_BF_tracks (s : LcdState) (busy : List Nat) (clear : Nat) (rest : List Nat)
    (hbusy : ∀ x ∈ busy, (x % 2 ^ 8) &&& (1 <<< LcdH.lcd_D7_bit) ≠ 0)
    (hclear : (clear % 2 ^ 8) &&& (1 <<< LcdH.lcd_D7_bit) = 0)
    (hE : s.PORTA.testBit LcdH.lcd_E_bit = false) :
    ∃ s1, lcd_check_BF (busy ++ clear :: rest) s = some (s1, rest) ∧
      Tracks pinsH s s1 (List.replicate (2 * (busy.length + 1))
        { rw := true, rs := false, d7 := s.PORTA.testBit 7, d6 := s.PORTA.testBit 6,
          d5 := s.PORTA.testBit 5, d4 := s.PORTA.testBit 4 }) ∧
      s1.PORTA.testBit LcdH.lcd_E_bit = false := by
  let sa : LcdState := lcdStore .DDRA (s.DDRA &&& bitNot (1 <<< LcdH.lcd_D7_bit)) s
  let sb : LcdState := lcdStore .PORTA (sa.PORTA &&& bitNot (1 <<< LcdH.lcd_RS_bit)) sa
  let sc : LcdState := lcdStore .PORTA (sb.PORTA ||| (1 <<< LcdH.lcd_RW_bit)) sb
  have ta : Tracks pinsH s sa [] := tracks_store_DDRA pinsH s s [] _ (tracks_refl pinsH s)
  have tb : Tracks pinsH s sb [] := tracks_store_low pinsH s sa [] _ ta hE
  have bb : ∀ i, sb.PORTA.testBit i
      = (decide (i < 8) && s.PORTA.testBit i && !decide (i = LcdH.lcd_RS_bit)) :=
    fun i => port_clear sa LcdH.lcd_RS_bit i
  have eb : sb.PORTA.testBit LcdH.lcd_E_bit = false := by
    rw [bb, hE]
    simp
  have tc : Tracks pinsH s sc [] := tracks_store_low pinsH s sb [] _ tb eb
  have bc : ∀ i, sc.PORTA.testBit i
      = (decide (i < 8) && (sb.PORTA.testBit i || decide (i = LcdH.lcd_RW_bit))) :=
    fun i => port_set sb LcdH.lcd_RW_bit i
  have ec : sc.PORTA.testBit LcdH.lcd_E_bit = false := by
    rw [bc, eb]
    simp [LcdH.lcd_E_bit, LcdH.lcd_RW_bit]
  have ac : strobeAt pinsH sc.PORTA
      = { rw := true, rs := false, d7 := s.PORTA.testBit 7, d6 := s.PORTA.testBit 6,
          d5 := s.PORTA.testBit 5, d4 := s.PORTA.testBit 4 } := by
    simp only [strobeAt, pinsH, bc, bb, LcdH.lcd_RS_bit, LcdH.lcd_RW_bit, LcdH.lcd_D7_bit,
      LcdH.lcd_D6_bit, LcdH.lcd_D5_bit, LcdH.lcd_D4_bit]
    simp
  obtain ⟨s1, r1, r2, r3, _⟩ := lcd_check_BF_loop_tracks busy clear rest hclear s sc []
    hbusy tc ec
  rw [ac, List.nil_append] at r2
  have td := tracks_store_low pinsH s s1 _ (s1.PORTA &&& bitNot (1 <<< LcdH.lcd_RW_bit)) r2 r3
  have ed : (lcdStore .PORTA (s1.PORTA &&& bitNot (1 <<< LcdH.lcd_RW_bit)) s1).PORTA.testBit
      LcdH.lcd_E_bit = false := by
    rw [port_clear, r3]
    simp
  have te := tracks_store_DDRA pinsH s _ _
    ((lcdStore .PORTA (s1.PORTA &&& bitNot (1 <<< LcdH.lcd_RW_bit)) s1).DDRA
      ||| (1 <<< LcdH.lcd_D7_bit)) td
  refine ⟨_, ?_, te, ed⟩
  show (match lcd_check_BF_loop (busy ++ clear :: rest) sc with
    | none => none
    | some (s, rest) =>
      some (lcdStore .DDRA ((lcdStore .PORTA (s.PORTA &&& bitNot (1 <<< LcdH.lcd_RW_bit)) s).DDRA
        ||| (1 <<< LcdH.lcd_D7_bit))
        (lcdStore .PORTA (s.PORTA &&& bitNot (1 <<< LcdH.lcd_RW_bit)) s), rest)) = _
  rw [r1]

/-- When every value read has the busy flag set, the loop of `lcd_check_BF` does not
end within them. -/
theorem lcd_check_BF_loop_busy (busy : List Nat)
    (hbusy : ∀ x ∈ busy, (x % 2 ^ 8) &&& (1 <<< LcdH.lcd_D7_bit) ≠ 0) :
    ∀ s : LcdState, lcd_check_BF_loop busy s = none := by
  induction busy with
  | nil => intro s; rfl
  | cons x busy ih =>
    intro s
    have hx := hbusy x (List.mem_cons_self x busy)
    simp only [lcd_check_BF_loop, hx, ne_eq, not_false_eq_true, if_true]
    exact ih (fun y hy => hbusy y (List.mem_cons_of_mem x hy)) _

/-- The last set-up statement `E low` of the write functions of `lcd.c` followed by
the two nibble writes, from a state with E and RW low. -/
theorem lcd_write_after_setup (s sB : LcdState) (out : List Strobe) (b : Nat) (rs : Bool)
    (tB : Tracks pinsH s sB out) (eB : sB.PORTA.testBit LcdH.lcd_E_bit = false)
    (wB : sB.PORTA.testBit LcdH.lcd_RW_bit = false)
    (rB : sB.PORTA.testBit LcdH.lcd_RS_bit = rs) :
    Tracks pinsH s
      (lcd_write ((b % 2 ^ 8) <<< 4 % 2 ^ 8) (lcd_write (b % 2 ^ 8)
        (lcdStore .PORTA (sB.PORTA &&& bitNot (1 <<< LcdH.lcd_E_bit)) sB)))
      (out ++ [{ rw := false, rs := rs, d7 := b.testBit 7, d6 := b.testBit 6,
                 d5 := b.testBit 5, d4 := b.testBit 4 },
               { rw := false, rs := rs, d7 := b.testBit 3, d6 := b.testBit 2,
                 d5 := b.testBit 1, d4 := b.testBit 0 }]) := by
  have tC := tracks_store_low pinsH s sB out (sB.PORTA &&& bitNot (1 <<< LcdH.lcd_E_bit)) tB eB
  have eC := store_clear_self sB LcdH.lcd_E_bit
  have wC := store_clear_other sB LcdH.lcd_E_bit LcdH.lcd_RW_bit (by decide) (by decide)
  have rC := store_clear_other sB LcdH.lcd_E_bit LcdH.lcd_RS_bit (by decide) (by decide)
  have t := lcd_write_twice_tracks s _ out b tC eC
  rw [wC, rC, wB, rB] at t
  exact t

/-- Strobes of `lcd_write_instruction(b)` of `lcd.c`, entered with E low, on values of
`PINA` that read busy, then clear: the call returns; its strobes are the read strobes
of the busy-flag polling, then the two write strobes with RS low. -/
theorem lcd_write_instruction_tracks (s : LcdState) (busy : List Nat) (clear : Nat)
    (rest : List Nat) (b : Nat)
    (hbusy : ∀ x ∈ busy, (x % 2 ^ 8) &&& (1 <<< LcdH.lcd_D7_bit) ≠ 0)
    (hclear : (clear % 2 ^ 8) &&& (1 <<< LcdH.lcd_D7_bit) = 0)
    (hE : s.PORTA.testBit LcdH.lcd_E_bit = false) :
    ∃ s2, lcd_write_instruction (busy ++ clear :: rest) b s = some (s2, rest) ∧
      Tracks pinsH s s2 (List.replicate (2 * (busy.length + 1))
        { rw := true, rs := false, d7 := s.PORTA.testBit 7, d6 := s.PORTA.testBit 6,
          d5 := s.PORTA.testBit 5, d4 := s.PORTA.testBit 4 } ++
        [{ rw := false, rs := false, d7 := b.testBit 7, d6 := b.testBit 6, d5 := b.testBit 5,
           d4 := b.testBit 4 },
         { rw := false, rs := false, d7 := b.testBit 3, d6 := b.testBit 2, d5 := b.testBit 1,
           d4 := b.testBit 0 }]) := by
  obtain ⟨s1, r1, t1, e1⟩ := lcd_check_BF_tracks s busy clear rest hbusy hclear hE
  let sA : LcdState := lcdStore .PORTA (s1.PORTA &&& bitNot (1 <<< LcdH.lcd_RW_bit)) s1
  let sB : LcdState := lcdStore .PORTA (sA.PORTA &&& bitNot (1 <<< LcdH.lcd_RS_bit)) sA
  have tA : Tracks pinsH s sA _ := tracks_store_low pinsH s s1 _ _ t1 e1
  have eA : sA.PORTA.testBit LcdH.lcd_E_bit = false := by
    rw [store_clear_other s1 LcdH.lcd_RW_bit LcdH.lcd_E_bit (by decide) (by decide)]
    exact e1
  have wA : sA.PORTA.testBit LcdH.lcd_RW_bit = false := store_clear_self s1 LcdH.lcd_RW_bit
  have tB : Tracks pinsH s sB _ := tracks_store_low pinsH s sA _ _ tA eA
  have eB : sB.PORTA.testBit LcdH.lcd_E_bit = false := by
    rw [store_clear_other sA LcdH.lcd_RS_bit LcdH.lcd_E_bit (by decide) (by decide)]
    exact eA
  have wB : sB.PORTA.testBit LcdH.lcd_RW_bit = false := by
    rw [store_clear_other sA LcdH.lcd_RS_bit LcdH.lcd_RW_bit (by decide) (by decide)]
    exact wA
  have rB : sB.PORTA.testBit LcdH.lcd_RS_bit = false := store_clear_self sA LcdH.lcd_RS_bit
  refine ⟨_, ?_, lcd_write_after_setup s sB _ b false tB eB wB rB⟩
  simp only [lcd_write_instruction, r1]

/-- Strobes of `lcd_write_character(b)` of `lcd.c`, entered with E low, on values of
`PINA` that read busy, then clear: the call returns; its strobes are the read strobes
of the busy-flag polling, then the two write strobes with RS high. -/
theorem lcd_write_character_tracks (s : LcdState) (busy : List Nat) (clear : Nat)
    (rest : List Nat) (b : Nat)
    (hbusy : ∀ x ∈ busy, (x % 2 ^ 8) &&& (1 <<< LcdH.lcd_D7_bit) ≠ 0)
    (hclear : (clear % 2 ^ 8) &&& (1 <<< LcdH.lcd_D7_bit) = 0)
    (hE : s.PORTA.testBit LcdH.lcd_E_bit = false) :
    ∃ s2, lcd_write_character (busy ++ clear :: rest) b s = some (s2, rest) ∧
      Tracks pinsH s s2 (List.replicate (2 * (busy.length + 1))
        { rw := true, rs := false, d7 := s.PORTA.testBit 7, d6 := s.PORTA.testBit 6,
          d5 := s.PORTA.testBit 5, d4 := s.PORTA.testBit 4 } ++
        [{ rw := false, rs := true, d7 := b.testBit 7, d6 := b.testBit 6, d5 := b.testBit 5,
           d4 := b.testBit 4 },
         { rw := false, rs := true, d7 := b.testBit 3, d6 := b.testBit 2, d5 := b.testBit 1,
           d4 := b.testBit 0 }]) := by
  obtain ⟨s1, r1, t1, e1⟩ := lcd_check_BF_tracks s busy clear rest hbusy hclear hE
  let sA : LcdState := lcdStore .PORTA (s1.PORTA &&& bitNot (1 <<< LcdH.lcd_RW_bit)) s1
  let sB : LcdState := lcdStore .PORTA (sA.PORTA ||| (1 <<< LcdH.lcd_RS_bit)) sA
  have tA : Tracks pinsH s sA _ := tracks_store_low pinsH s s1 _ _ t1 e1
  have eA : sA.PORTA.testBit LcdH.lcd_E_bit = false := by
    rw [store_clear_other s1 LcdH.lcd_RW_bit LcdH.lcd_E_bit (by decide) (by decide)]
    exact e1
  have wA : sA.PORTA.testBit LcdH.lcd_RW_bit = false := store_clear_self s1 LcdH.lcd_RW_bit
  have tB : Tracks pinsH s sB _ := tracks_store_low pinsH s sA _ _ tA eA
  have eB : sB.PORTA.testBit LcdH.lcd_E_bit = false := by
    rw [store_set_other sA LcdH.lcd_RS_bit LcdH.lcd_E_bit (by decide) (by decide)]
    exact eA
  have wB : sB.PORTA.testBit LcdH.lcd_RW_bit = false := by
    rw [store_set_other sA LcdH.lcd_RS_bit LcdH.lcd_RW_bit (by decide) (by decide)]
    exact wA
  have rB : sB.PORTA.testBit LcdH.lcd_RS_bit = true :=
    store_set_self sA LcdH.lcd_RS_bit (by decide)
  refine ⟨_, ?_, lcd_write_after_setup s sB _ b true tB eB wB rB⟩
  simp only [lcd_write_character, r1]

/-- Read strobes are dropped from the write strobes. -/
theorem filter_write_strobes (n : Nat) (r : Strobe) (ws : List Strobe) (hr : r.rw = true)
    (hw : ∀ w ∈ ws, w.rw = false) :
    List.filter (fun x => !x.rw) (List.replicate n r ++ ws) = ws := by
  induction n with
  | zero =>
    simp only [List.replicate_zero, List.nil_append]
    exact List.filter_eq_self.mpr (fun w hwm => by simp [hw w hwm])
  | succ n ih =>
    rw [List.replicate_succ, List.cons_append, List.filter_cons_of_neg (by simp [hr])]
    exact ih

/-- Claim C21: for every byte `b`, each of `lcd_write_instruction_4d(b)`,
`lcd_write_character_4d(b)`, `lcd_write_instruction(b)` and `lcd_write_character(b)`,
entered with E low, presents exactly two nibbles latched by a falling edge of E with
RW low: first bits 7..4 of `b` on D7..D4, then bits 3..0 of `b` on D7..D4, with RS
low for an instruction and high for a character. The functions of `lcd.c` first poll
the busy flag; on values of `PINA` that read busy and then clear they return, and
their other strobes are the read strobes of the polling (RW high, RS low), two per
pass. -/
theorem lcd_writes_present_two_nibbles (b : Nat) (s4 s : LcdState) (busy : List Nat)
    (clear : Nat) (rest : List Nat)
    (hE4 : s4.PORTA.testBit lcd_E_bit = false)
    (hE : s.PORTA.testBit LcdH.lcd_E_bit = false)
    (hbusy : ∀ x ∈ busy, (x % 2 ^ 8) &&& (1 <<< LcdH.lcd_D7_bit) ≠ 0)
    (hclear : (clear % 2 ^ 8) &&& (1 <<< LcdH.lcd_D7_bit) = 0) :
    strobes pins4d s4.PORTA (effectsSince s4.log.length (lcd_write_instruction_4d b s4))
      = [{ rw := false, rs := false, d7 := b.testBit 7, d6 := b.testBit 6,
           d5 := b.testBit 5, d4 := b.testBit 4 },
         { rw := false, rs := false, d7 := b.testBit 3, d6 := b.testBit 2,
           d5 := b.testBit 1, d4 := b.testBit 0 }] ∧
    strobes pins4d s4.PORTA (effectsSince s4.log.length (lcd_write_character_4d b s4))
      = [{ rw := false, rs := true, d7 := b.testBit 7, d6 := b.testBit 6,
           d5 := b.testBit 5, d4 := b.testBit 4 },
         { rw := false, rs := true, d7 := b.testBit 3, d6 := b.testBit 2,
           d5 := b.testBit 1, d4 := b.testBit 0 }] ∧
    callWriteStrobes pinsH s (lcd_write_instruction (busy ++ clear :: rest) b s)
      = some [{ rw := false, rs := false, d7 := b.testBit 7, d6 := b.testBit 6,
                d5 := b.testBit 5, d4 := b.testBit 4 },
              { rw := false, rs := false, d7 := b.testBit 3, d6 := b.testBit 2,
                d5 := b.testBit 1, d4 := b.testBit 0 }] ∧
    callWriteStrobes pinsH s (lcd_write_character (busy ++ clear :: rest) b s)
      = some [{ rw := false, rs := true, d7 := b.testBit 7, d6 := b.testBit 6,
                d5 := b.testBit 5, d4 := b.testBit 4 },
              { rw := false, rs := true, d7 := b.testBit 3, d6 := b.testBit 2,
                d5 := b.testBit 1, d4 := b.testBit 0 }] ∧
    callStrobes pinsH s (lcd_write_instruction (busy ++ clear :: rest) b s)
      = some (List.replicate (2 * (busy.length + 1))
          { rw := true, rs := false, d7 := s.PORTA.testBit 7, d6 := s.PORTA.testBit 6,
            d5 := s.PORTA.testBit 5, d4 := s.PORTA.testBit 4 } ++
        [{ rw := false, rs := false, d7 := b.testBit 7, d6 := b.testBit 6,
           d5 := b.testBit 5, d4 := b.testBit 4 },
         { rw := false, rs := false, d7 := b.testBit 3, d6 := b.testBit 2,
           d5 := b.testBit 1, d4 := b.testBit 0 }]) ∧
    callStrobes pinsH s (lcd_write_character (busy ++ clear :: rest) b s)
      = some (List.replicate (2 * (busy.length + 1))
          { rw := true, rs := false, d7 := s.PORTA.testBit 7, d6 := s.PORTA.testBit 6,
            d5 := s.PORTA.testBit 5, d4 := s.PORTA.testBit 4 } ++
        [{ rw := false, rs := true, d7 := b.testBit 7, d6 := b.testBit 6,
           d5 := b.testBit 5, d4 := b.testBit 4 },
         { rw := false, rs := true, d7 := b.testBit 3, d6 := b.testBit 2,
           d5 := b.testBit 1, d4 := b.testBit 0 }]) := by
  have i4 := strobes_of_tracks pins4d s4 _ _ (lcd_write_instruction_4d_tracks s4 b hE4)
  have c4 := strobes_of_tracks pins4d s4 _ _ (lcd_write_character_4d_tracks s4 b hE4)
  obtain ⟨si, ri, ti⟩ := lcd_write_instruction_tracks s busy clear rest b hbusy hclear hE
  obtain ⟨sc, rc, tc⟩ := lcd_write_character_tracks s busy clear rest b hbusy hclear hE
  have hi := strobes_of_tracks pinsH s si _ ti
  have hc := strobes_of_tracks pinsH s sc _ tc
  refine ⟨i4, c4, ?_, ?_, ?_, ?_⟩
  · rw [ri]
    simp only [callWriteStrobes, Option.map_some', writeStrobes, hi]
    rw [filter_write_strobes _ _ _ rfl (by simp)]
  · rw [rc]
    simp only [callWriteStrobes, Option.map_some', writeStrobes, hc]
    rw [filter_write_strobes _ _ _ rfl (by simp)]
  · rw [ri]
    simp only [callStrobes, Option.map_some', hi]
  · rw [rc]
    simp only [callStrobes, Option.map_some', hc]

/-- Witness for C21: the byte `0xA5`, all registers zero, and a busy flag that reads set
twice and then clear. -/
theorem lcd_writes_present_two_nibbles_witness :
    strobes pins4d 0 (effectsSince 0 (lcd_write_instruction_4d 0xA5 lcdZero))
      = [{ rw := false, rs := false, d7 := true, d6 := false,
           d5 := true, d4 := false },
         { rw := false, rs := false, d7 := false, d6 := true,
           d5 := false, d4 := true }] ∧
    strobes pins4d 0 (effectsSince 0 (lcd_write_character_4d 0xA5 lcdZero))
      = [{ rw := false, rs := true, d7 := true, d6 := false,
           d5 := true, d4 := false },
         { rw := false, rs := true, d7 := false, d6 := true,
           d5 := false, d4 := true }] ∧
    callWriteStrobes pinsH lcdZero
        (lcd_write_instruction ([0x80, 0xFF] ++ 0x7F :: [3]) 0xA5 lcdZero)
      = some [{ rw := false, rs := false, d7 := true, d6 := false,
                d5 := true, d4 := false },
              { rw := false, rs := false, d7 := false, d6 := true,
                d5 := false, d4 := true }] ∧
    callWriteStrobes pinsH lcdZero (lcd_write_character ([0x80, 0xFF] ++ 0x7F :: [3]) 0xA5 lcdZero)
      = some [{ rw := false, rs := true, d7 := true, d6 := false,
                d5 := true, d4 := false },
              { rw := false, rs := true, d7 := false, d6 := true,
                d5 := false, d4 := true }] ∧
    callStrobes pinsH lcdZero (lcd_write_instruction ([0x80, 0xFF] ++ 0x7F :: [3]) 0xA5 lcdZero)
      = some (List.replicate (2 * (2 + 1))
          { rw := true, rs := false, d7 := false, d6 := false,
            d5 := false, d4 := false } ++
        [{ rw := false, rs := false, d7 := true, d6 := false,
           d5 := true, d4 := false },
         { rw := false, rs := false, d7 := false, d6 := true,
           d5 := false, d4 := true }]) ∧
    callStrobes pinsH lcdZero (lcd_write_character ([0x80, 0xFF] ++ 0x7F :: [3]) 0xA5 lcdZero)
      = some (List.replicate (2 * (2 + 1))
          { rw := true, rs := false, d7 := false, d6 := false,
            d5 := false, d4 := false } ++
        [{ rw := false, rs := true, d7 := true, d6 := false,
           d5 := true, d4 := false },
         { rw := false, rs := true, d7 := false, d6 := true,
           d5 := false, d4 := true }]) :=
  lcd_writes_present_two_nibbles 0xA5 lcdZero lcdZero [0x80, 0xFF] 0x7F [3]
    (by decide) (by decide) (by decide) (by decide)

end Srf04
